import Mathlib

/-!
Shallow embedding of the core gameplay logic of the messy-game repository
(directory src/messy-game-raylib): world wall queries (world.c), ball
physics (ball.c), the snake boss controller (snake_boss.c) and the
win-condition resolver (win_condition.c), together with theorems settling
the frozen claims about them.

Modelling conventions:
 - C `float` values are modelled as exact rationals (ℚ); grid coordinates
   and counts as integers (ℤ / ℕ).  A C cast `(int)x` of a float is
   truncation toward zero, modelled by `truncQ`.
 - Comparisons of the form `sqrtf(e) < r` are translated exactly (for the
   real square root) into the decidable squared comparisons `sqrtLtB` /
   `sqrtGtB`; lemmas `sqrtLtB_iff` / `sqrtGtB_iff` prove the translation
   correct against `Real.sqrt`.
 - Where the code uses the *value* of `sqrtf` (normalising a vector,
   scaling a velocity), the square-root function is abstracted as an
   explicit parameter `sq : ℚ → ℚ` of the embedding; theorems either hold
   for every `sq` or carry a hypothesis characterising it at the inputs
   actually used.
 - Heap management (malloc failure, segment-array capacity doubling) is
   not observable in the claims and is modelled as always succeeding;
   the segment array is a Lean list whose length is `segmentCount`.
 - Purely visual state (render calls, thunder particles, flash text) is
   omitted; ball colours are kept because the code writes them next to
   the ownership state.
-/

/-- Truncation toward zero of a rational, the semantics of a C `(int)`
cast applied to a float value. -/
def truncQ (q : ℚ) : ℤ := if 0 ≤ q then ⌊q⌋ else ⌈q⌉

/-- Decidable translation of the C comparison `sqrtf a < b` (for `0 ≤ a`):
the square root of `a` is below `b` iff `b` is positive and `a < b * b`. -/
def sqrtLtB (a b : ℚ) : Bool := decide (0 < b ∧ a < b * b)

/-- Decidable translation of the C comparison `sqrtf a > b` (for `0 ≤ a`):
the square root of `a` exceeds `b` iff `b` is negative or `b * b < a`. -/
def sqrtGtB (a b : ℚ) : Bool := decide (b < 0 ∨ b * b < a)

theorem sqrtLtB_iff (a b : ℚ) (ha : 0 ≤ a) :
    sqrtLtB a b = true ↔ Real.sqrt (a : ℝ) < (b : ℝ) := by
  unfold sqrtLtB
  simp only [decide_eq_true_eq]
  constructor
  · rintro ⟨hb, hab⟩
    have hb' : (0 : ℝ) < (b : ℝ) := by exact_mod_cast hb
    rw [show ((b : ℝ) = Real.sqrt ((b : ℝ) ^ 2)) from (Real.sqrt_sq hb'.le).symm]
    apply Real.sqrt_lt_sqrt (by exact_mod_cast ha)
    have : (a : ℝ) < (b : ℝ) * (b : ℝ) := by exact_mod_cast hab
    nlinarith
  · intro h
    have hb : (0 : ℝ) < (b : ℝ) := lt_of_le_of_lt (Real.sqrt_nonneg _) h
    have ha' : (0 : ℝ) ≤ (a : ℝ) := by exact_mod_cast ha
    have h2 : (a : ℝ) < (b : ℝ) * (b : ℝ) := by
      have := Real.sq_sqrt ha'
      nlinarith [Real.sqrt_nonneg (a : ℝ), this]
    exact ⟨by exact_mod_cast hb, by exact_mod_cast h2⟩

theorem sqrtGtB_iff (a b : ℚ) (ha : 0 ≤ a) :
    sqrtGtB a b = true ↔ (b : ℝ) < Real.sqrt (a : ℝ) := by
  unfold sqrtGtB
  simp only [decide_eq_true_eq]
  constructor
  · rintro (hb | hab)
    · exact lt_of_lt_of_le (by exact_mod_cast hb) (Real.sqrt_nonneg _)
    · have ha' : (0 : ℝ) ≤ (a : ℝ) := by exact_mod_cast ha
      rcases le_or_lt (b : ℝ) 0 with hb | hb
      · rcases lt_or_eq_of_le hb with hb' | hb'
        · exact lt_of_lt_of_le hb' (Real.sqrt_nonneg _)
        · have h2 : (0 : ℝ) < (a : ℝ) := by
            have : (b : ℝ) * (b : ℝ) < (a : ℝ) := by exact_mod_cast hab
            nlinarith
          rw [hb']
          exact Real.sqrt_pos.mpr h2
      · rw [show ((b : ℝ) = Real.sqrt ((b : ℝ) ^ 2)) from (Real.sqrt_sq hb.le).symm]
        apply Real.sqrt_lt_sqrt (by positivity)
        have : (b : ℝ) * (b : ℝ) < (a : ℝ) := by exact_mod_cast hab
        nlinarith
  · intro h
    rcases lt_or_le b 0 with hb | hb
    · exact Or.inl hb
    · right
      have hb' : (0 : ℝ) ≤ (b : ℝ) := by exact_mod_cast hb
      have ha' : (0 : ℝ) ≤ (a : ℝ) := by exact_mod_cast ha
      have h2 : (b : ℝ) * (b : ℝ) < (a : ℝ) := by
        have hs := Real.sq_sqrt ha'
        nlinarith [Real.sqrt_nonneg (a : ℝ)]
      exact_mod_cast h2

-- Configuration constants from config.h and the snake-boss / player headers.

def TILE_WIDTH : ℚ := 25
def TILE_HEIGHT : ℚ := 25
def BALL_RADIUS : ℚ := 5
def BALL_INITIAL_SPEED : ℚ := 2
def BALL_MAX_SPEED : ℚ := 8
def BALL_BOUNCE_FACTOR : ℚ := 4/5
def BALL_FRICTION : ℚ := 49/50
def PLAYER_PUSH_FORCE : ℚ := 5
def WIN_HOLE_RADIUS : ℚ := 15
def WIN_ENEMY_DAMAGE_TO_PLAYER : ℚ := 30
def WIN_PLAYER_SEGMENTS_SNAKEBOSS : ℕ := 3
def WIN_NEUTRAL_BALL_HOLD_TIME : ℚ := 2
def SNAKE_INITIAL_MOVE_INTERVAL : ℚ := 1/5
def SNAKE_MIN_MOVE_INTERVAL : ℚ := 1/20
def SNAKE_INTERVAL_DECREASE : ℚ := 1/20
def SNAKE_GROW_TIME : ℚ := 2
def SNAKE_SHRINK_TIME : ℚ := 2
/-- Derived segment width: `TILE_WIDTH * SNAKE_SEGMENT_WIDTH_TILES` with 2 tiles. -/
def SNAKE_SEGMENT_WIDTH : ℚ := 50
def SNAKE_SEGMENT_HEIGHT : ℚ := 50
/-- The second `#define` of `SNAKE_HEAD_RADIUS` in snake_boss.c wins for all
uses: `(SNAKE_SEGMENT_WIDTH + SNAKE_SEGMENT_HEIGHT) / 4.0f * 1.5f = 37.5`. -/
def SNAKE_HEAD_RADIUS : ℚ := 75/2
def PLAYER_XP_PER_HIT : ℚ := 110
def PLAYER_BASE_KICK_FORCE : ℚ := 5
def PLAYER_BASE_MOVE_SPEED : ℚ := 1
def PLAYER_KICK_FORCE_PER_LEVEL : ℚ := 1/2
def PLAYER_MOVE_SPEED_PER_LEVEL : ℚ := 1/2
def PLAYER_XP_SCALE_FACTOR : ℚ := 11/10

/-- The world of world.c: a grid of `width` by `height` tiles.  The tile
data itself is not stored; world.c computes walls from coordinates. -/
structure World where
  width : ℤ
  height : ℤ
deriving DecidableEq

/-- WorldIsWallAtPosition from world.c.  A `none` world is the C null
pointer.  Out-of-bounds tiles and the stub layout (borders, a horizontal
wall in the middle and two vertical walls) are walls. -/
def WorldIsWallAtPosition (w : Option World) (x y : ℚ) : Bool :=
  match w with
  | none => true
  | some w =>
    let tileX : ℤ := truncQ (x / TILE_WIDTH)
    let tileY : ℤ := truncQ (y / TILE_HEIGHT)
    if tileX < 0 ∨ w.width ≤ tileX ∨ tileY < 0 ∨ w.height ≤ tileY then true
    else if tileX = 0 ∨ tileY = 0 ∨ tileX = w.width - 1 ∨ tileY = w.height - 1 then true
    else
      let centerX : ℤ := Int.tdiv w.width 2
      let centerY : ℤ := Int.tdiv w.height 2
      if tileY = centerY ∧ |tileX - centerX| ≤ 5 then true
      else if tileX = centerX - 10 ∧ |tileY - centerY| ≤ 3 then true
      else if tileX = centerX + 10 ∧ |tileY - centerY| ≤ 3 then true
      else false

/-- Movement directions from entity.h (DIRECTION_DOWN = 0, UP, LEFT, RIGHT). -/
inductive Direction where
  | down
  | up
  | left
  | right
deriving DecidableEq

/-- Ball ownership state from ball.h (BALL_STATE_NEUTRAL / PLAYER / SNAKE). -/
inductive BallState where
  | neutral
  | player
  | snake
deriving DecidableEq

/-- Ball kind from ball.h; only used by cosmetic special effects. -/
inductive BallType where
  | normal
  | fire
  | ice
  | lightning
deriving DecidableEq

/-- The colours the core logic writes (raylib Color values). -/
inductive CColor where
  | white
  | red
  | maroon
  | other
deriving DecidableEq

/-- The ball entity together with its BallData payload (entity.h, ball.h).
Having a `Ball` value corresponds to a non-null entity of type ENTITY_BALL
with non-null ball data in C. -/
structure Ball where
  x : ℚ
  y : ℚ
  speedX : ℚ
  speedY : ℚ
  active : Bool
  btype : BallType
  state : BallState
  radius : ℚ
  bounceFactor : ℚ
  friction : ℚ
  damage : ℚ
  hasSpecialEffect : Bool
  innerColor : CColor
  outerColor : CColor
deriving DecidableEq

/-- Player alive/dying/dead state from player.h. -/
inductive PlayerState where
  | alive
  | dying
  | dead
deriving DecidableEq

/-- The player entity together with its PlayerData payload (entity.h,
player.h); only the fields the core operations read or write. -/
structure PlayerEnt where
  x : ℚ
  y : ℚ
  width : ℚ
  height : ℚ
  speedX : ℚ
  speedY : ℚ
  maxHealth : ℚ
  currentHealth : ℚ
  currentXP : ℚ
  maxXP : ℚ
  kickForce : ℚ
  moveSpeed : ℚ
  level : ℤ
  state : PlayerState
deriving DecidableEq

/-- BallApplyForce from ball.c: add the force to the velocity, then cap
the velocity magnitude at BALL_MAX_SPEED.  Inactive balls are untouched.
`sq` abstracts the C `sqrtf` used for the scaling denominator. -/
def BallApplyForce (sq : ℚ → ℚ) (b : Ball) (forceX forceY : ℚ) : Ball :=
  if b.active = false then b
  else
    let sx := b.speedX + forceX
    let sy := b.speedY + forceY
    let mag2 := sx * sx + sy * sy
    if sqrtGtB mag2 BALL_MAX_SPEED then
      let scale := BALL_MAX_SPEED / sq mag2
      { b with speedX := sx * scale, speedY := sy * scale }
    else
      { b with speedX := sx, speedY := sy }

/-- One iteration of the 3-by-3 wall-collision loop in
BallHandleWallCollision: resolve the ball against the tile at grid cell
(cX, cY), first on the x axis and then on the y axis. -/
def wallTileStep (w : World) (prevX prevY : ℚ) (b : Ball) (cX cY : ℤ) : Ball :=
  if WorldIsWallAtPosition (some w) (cX * TILE_WIDTH) (cY * TILE_HEIGHT) = true then
    let tileLeft : ℚ := cX * TILE_WIDTH
    let tileRight : ℚ := tileLeft + TILE_WIDTH
    let tileTop : ℚ := cY * TILE_HEIGHT
    let tileBottom : ℚ := tileTop + TILE_HEIGHT
    let r := b.radius
    let b1 :=
      if b.y > tileTop ∧ b.y < tileBottom then
        if prevX + r < tileLeft ∧ b.x + r ≥ tileLeft then
          { b with x := tileLeft - r, speedX := -b.speedX * b.bounceFactor }
        else if prevX - r > tileRight ∧ b.x - r ≤ tileRight then
          { b with x := tileRight + r, speedX := -b.speedX * b.bounceFactor }
        else b
      else b
    if b1.x > tileLeft ∧ b1.x < tileRight then
      if prevY + r < tileTop ∧ b1.y + r ≥ tileTop then
        { b1 with y := tileTop - r, speedY := -b1.speedY * b1.bounceFactor }
      else if prevY - r > tileBottom ∧ b1.y - r ≤ tileBottom then
        { b1 with y := tileBottom + r, speedY := -b1.speedY * b1.bounceFactor }
      else b1
    else b1
  else b

/-- BallHandleWallCollision from ball.c: resolve the ball against every
wall tile in the 3-by-3 neighbourhood of its current tile, then clamp it
inside the world rectangle, reflecting and scaling the velocity by the
bounce factor on each resolved axis. -/
def BallHandleWallCollision (b : Ball) (w : World) (prevX prevY : ℚ) : Ball :=
  let tileX : ℤ := truncQ (b.x / TILE_WIDTH)
  let tileY : ℤ := truncQ (b.y / TILE_HEIGHT)
  let offsets : List (ℤ × ℤ) :=
    [(-1, -1), (-1, 0), (-1, 1), (0, -1), (0, 0), (0, 1), (1, -1), (1, 0), (1, 1)]
  let b1 := offsets.foldl
    (fun bb o => wallTileStep w prevX prevY bb (tileX + o.1) (tileY + o.2)) b
  let worldWidthPixels : ℚ := w.width * TILE_WIDTH
  let worldHeightPixels : ℚ := w.height * TILE_HEIGHT
  let b2 :=
    if b1.x - b1.radius < 0 then
      { b1 with x := b1.radius, speedX := -b1.speedX * b1.bounceFactor }
    else if b1.x + b1.radius > worldWidthPixels then
      { b1 with x := worldWidthPixels - b1.radius, speedX := -b1.speedX * b1.bounceFactor }
    else b1
  if b2.y - b2.radius < 0 then
    { b2 with y := b2.radius, speedY := -b2.speedY * b2.bounceFactor }
  else if b2.y + b2.radius > worldHeightPixels then
    { b2 with y := worldHeightPixels - b2.radius, speedY := -b2.speedY * b2.bounceFactor }
  else b2

/-- BallHandlePlayerCollision from ball.c: on overlap, push the ball to
touching distance along the collision normal, give it push-force plus
half the player velocity, and cap the result at BALL_MAX_SPEED. -/
def BallHandlePlayerCollision (sq : ℚ → ℚ) (b : Ball) (p : PlayerEnt) : Ball :=
  let dx := b.x - p.x
  let dy := b.y - p.y
  let dist2 := dx * dx + dy * dy
  let playerRadius := (p.width + p.height) / 4
  if sqrtLtB dist2 (b.radius + playerRadius) then
    let dist := sq dist2
    let nx := dx / dist
    let ny := dy / dist
    let x' := p.x + nx * (b.radius + playerRadius)
    let y' := p.y + ny * (b.radius + playerRadius)
    let sx := nx * PLAYER_PUSH_FORCE + p.speedX * (1/2)
    let sy := ny * PLAYER_PUSH_FORCE + p.speedY * (1/2)
    let mag2 := sx * sx + sy * sy
    if sqrtGtB mag2 BALL_MAX_SPEED then
      let scale := BALL_MAX_SPEED / sq mag2
      { b with x := x', y := y', speedX := sx * scale, speedY := sy * scale }
    else
      { b with x := x', y := y', speedX := sx, speedY := sy }
  else b

/-- The first two statements of the BallUpdate body: integrate position
by velocity, then apply the friction factor to the velocity. -/
def ballIntegrate (b : Ball) : Ball :=
  { b with
      x := b.x + b.speedX
      y := b.y + b.speedY
      speedX := b.speedX * b.friction
      speedY := b.speedY * b.friction }

/-- BallUpdate from ball.c: integrate position by velocity, apply
friction, resolve wall then player collisions, and zero each velocity
component smaller than 0.1 in absolute value.  The special-effect switch
in the source has empty branches and the delta-time argument is unused
there; both are reflected here.  Inactive balls are untouched. -/
def BallUpdate (sq : ℚ → ℚ) (b : Ball) (w : World) (p : PlayerEnt) (deltaTime : ℚ) : Ball :=
  if b.active = false then b
  else
    let prevX := b.x
    let prevY := b.y
    let b2 := ballIntegrate b
    let b3 := BallHandleWallCollision b2 w prevX prevY
    let b4 := BallHandlePlayerCollision sq b3 p
    let b5 := if |b4.speedX| < 1/10 then { b4 with speedX := 0 } else b4
    if |b5.speedY| < 1/10 then { b5 with speedY := 0 } else b5

/-- PlayerAwardXP from player.c: add XP to a living player and level up
on reaching the XP cap (scaling the cap, boosting stats and refilling
health).  Returns the updated player and the level-up flag. -/
def PlayerAwardXP (p : PlayerEnt) (xpAmount : ℚ) : PlayerEnt × Bool :=
  if p.state ≠ PlayerState.alive then (p, false)
  else
    let p1 := { p with currentXP := p.currentXP + xpAmount }
    if p1.currentXP ≥ p1.maxXP then
      let remainingXP := p1.currentXP - p1.maxXP
      let p2 := { p1 with
        level := p1.level + 1,
        maxXP := p1.maxXP * PLAYER_XP_SCALE_FACTOR,
        currentXP := remainingXP,
        kickForce := p1.kickForce + PLAYER_BASE_KICK_FORCE * PLAYER_KICK_FORCE_PER_LEVEL,
        moveSpeed := p1.moveSpeed + PLAYER_BASE_MOVE_SPEED * PLAYER_MOVE_SPEED_PER_LEVEL,
        maxHealth := p1.maxHealth + 10 }
      ({ p2 with currentHealth := p2.maxHealth }, true)
    else (p1, false)

/-- One segment of the snake boss (snake_boss.h). -/
structure SnakeSegment where
  gridX : ℤ
  gridY : ℤ
  worldX : ℚ
  worldY : ℚ
deriving DecidableEq

/-- Snake boss finite-state tag (snake_boss.h). -/
inductive SnakeBossState where
  | idle
  | tracking
  | moving
  | growing
  | shrinking
  | defeated
deriving DecidableEq

/-- SnakeBossData from snake_boss.h plus the position fields of the
containing Entity (snakeBoss->x, snakeBoss->y, kept in sync with the head
segment).  `segments` is the segment array with `segmentCount` entries;
`segmentCapacity` is heap bookkeeping and not modelled.  Colours are
cosmetic and omitted. -/
structure SnakeBossData where
  state : SnakeBossState
  segments : List SnakeSegment
  currentDir : Direction
  nextDir : Direction
  targetGridX : ℤ
  targetGridY : ℤ
  hasTarget : Bool
  moveTimer : ℚ
  moveInterval : ℚ
  growTimer : ℚ
  shrinkTimer : ℚ
  entityX : ℚ
  entityY : ℚ
deriving DecidableEq

/-- The direction-reversal switch at the top of SnakeBossFindPath. -/
def dirOpposite : Direction → Direction
  | Direction.up => Direction.down
  | Direction.down => Direction.up
  | Direction.left => Direction.right
  | Direction.right => Direction.left

/-- Grid offset of one step in a direction (the switches in
SnakeBossMove and CheckDirectionValidity). -/
def dirStep : Direction → ℤ × ℤ
  | Direction.up => (0, -1)
  | Direction.down => (0, 1)
  | Direction.left => (-1, 0)
  | Direction.right => (1, 0)

/-- SnakeBossIsValidPosition from snake_boss.c: the cell is free when its
centre is not a wall and no non-head body segment occupies it. -/
def SnakeBossIsValidPosition (bd : SnakeBossData) (gridX gridY : ℤ) (w : World) : Bool :=
  let worldX : ℚ := gridX * TILE_WIDTH + TILE_WIDTH / 2
  let worldY : ℚ := gridY * TILE_HEIGHT + TILE_HEIGHT / 2
  if WorldIsWallAtPosition (some w) worldX worldY then false
  else if (bd.segments.drop 1).any (fun s => decide (s.gridX = gridX ∧ s.gridY = gridY)) then false
  else true

/-- SnakeBossUpdateSegments from snake_boss.c: recompute every segment's
world coordinates from its grid coordinates (with the two-tile segment
size) and sync the entity position to the head. -/
def SnakeBossUpdateSegments (bd : SnakeBossData) : SnakeBossData :=
  let segs := bd.segments.map (fun s =>
    { s with worldX := s.gridX * TILE_WIDTH + (2 * TILE_WIDTH) / 2,
             worldY := s.gridY * TILE_HEIGHT + (2 * TILE_HEIGHT) / 2 })
  match segs with
  | [] => { bd with segments := segs }
  | h :: _ => { bd with segments := segs, entityX := h.worldX, entityY := h.worldY }

/-- The selection loop of SnakeBossFindPath over the direction entries
(direction, distance, validity), in evaluation order: a valid entry is
taken when nothing is taken yet or when it strictly lowers the best
distance, so the first minimiser wins ties. -/
def bestDirLoop : List (Direction × ℤ × Bool) → Direction × ℤ × Bool → Direction × ℤ × Bool
  | [], acc => acc
  | e :: rest, acc =>
    bestDirLoop rest
      (if e.2.2 && (!acc.2.2 || decide (e.2.1 < acc.2.1)) then (e.1, e.2.1, true) else acc)

/-- SnakeBossFindPath from snake_boss.c: evaluate the four cardinal
neighbours of the head in the order up, right, down, left; a neighbour is
valid when the cell is free and the direction is not the reverse of the
current one; keep the first strict minimiser of the Manhattan distance to
the target; if any valid direction was found, queue it as nextDir (both
source branches assign it), otherwise leave the data untouched. -/
def SnakeBossFindPath (bd : SnakeBossData) (targetGridX targetGridY : ℤ) (w : World) :
    SnakeBossData :=
  match bd.segments with
  | [] => bd
  | hseg :: _ =>
    let headGridX := hseg.gridX
    let headGridY := hseg.gridY
    let oppositeDir := dirOpposite bd.currentDir
    let currentDist := |targetGridX - headGridX| + |targetGridY - headGridY|
    let distUp := |targetGridX - (headGridX + (dirStep Direction.up).1)|
      + |targetGridY - (headGridY + (dirStep Direction.up).2)|
    let distRight := |targetGridX - (headGridX + (dirStep Direction.right).1)|
      + |targetGridY - (headGridY + (dirStep Direction.right).2)|
    let distDown := |targetGridX - (headGridX + (dirStep Direction.down).1)|
      + |targetGridY - (headGridY + (dirStep Direction.down).2)|
    let distLeft := |targetGridX - (headGridX + (dirStep Direction.left).1)|
      + |targetGridY - (headGridY + (dirStep Direction.left).2)|
    let validUp := SnakeBossIsValidPosition bd (headGridX + (dirStep Direction.up).1)
      (headGridY + (dirStep Direction.up).2) w && decide (Direction.up ≠ oppositeDir)
    let validRight := SnakeBossIsValidPosition bd (headGridX + (dirStep Direction.right).1)
      (headGridY + (dirStep Direction.right).2) w && decide (Direction.right ≠ oppositeDir)
    let validDown := SnakeBossIsValidPosition bd (headGridX + (dirStep Direction.down).1)
      (headGridY + (dirStep Direction.down).2) w && decide (Direction.down ≠ oppositeDir)
    let validLeft := SnakeBossIsValidPosition bd (headGridX + (dirStep Direction.left).1)
      (headGridY + (dirStep Direction.left).2) w && decide (Direction.left ≠ oppositeDir)
    let entries : List (Direction × ℤ × Bool) :=
      [(Direction.up, distUp, validUp), (Direction.right, distRight, validRight),
       (Direction.down, distDown, validDown), (Direction.left, distLeft, validLeft)]
    let s4 := bestDirLoop entries (bd.currentDir, 999999, false)
    if s4.2.2 && decide (s4.2.1 ≤ currentDist) then { bd with nextDir := s4.1 }
    else if s4.2.2 then { bd with nextDir := s4.1 }
    else bd

/-- The segment-shift loop of SnakeBossMove: each non-head segment takes
the grid position of its predecessor and the head takes the new cell;
world coordinates are untouched here (they are recomputed right after by
SnakeBossUpdateSegments). -/
def shiftSegments (segs : List SnakeSegment) (newGridX newGridY : ℤ) : List SnakeSegment :=
  List.zipWith (fun s g => { s with gridX := g.1, gridY := g.2 }) segs
    ((newGridX, newGridY) :: (segs.map (fun s => (s.gridX, s.gridY))).dropLast)

/-- SnakeBossMove from snake_boss.c: step the head one cell in the
current direction when that cell is valid, shifting every other segment's
grid position to its predecessor and recomputing world coordinates;
return false and change nothing when the cell is blocked. -/
def SnakeBossMove (bd : SnakeBossData) (w : World) : SnakeBossData × Bool :=
  match bd.segments with
  | [] => (bd, false)
  | hseg :: _ =>
    let step := dirStep bd.currentDir
    let newGridX := hseg.gridX + step.1
    let newGridY := hseg.gridY + step.2
    if SnakeBossIsValidPosition bd newGridX newGridY w = false then (bd, false)
    else
      (SnakeBossUpdateSegments
        { bd with segments := shiftSegments bd.segments newGridX newGridY }, true)

/-- SnakeBossGrow from snake_boss.c: append a copy of the tail segment
and speed up (shrink the move interval down to the minimum).  Capacity
doubling and allocation failure are heap details not modelled. -/
def SnakeBossGrow (bd : SnakeBossData) : SnakeBossData :=
  match bd.segments.getLast? with
  | none => bd
  | some lastSeg =>
    { bd with
      segments := bd.segments ++ [lastSeg],
      moveInterval := max SNAKE_MIN_MOVE_INTERVAL (bd.moveInterval - SNAKE_INTERVAL_DECREASE) }

/-- SnakeBossShrink from snake_boss.c: drop the last segment and slow
down, unless only the head remains, in which case report defeat and
change nothing. -/
def SnakeBossShrink (bd : SnakeBossData) : SnakeBossData × Bool :=
  if bd.segments.length ≤ 1 then (bd, false)
  else
    ({ bd with
        segments := bd.segments.dropLast,
        moveInterval := min SNAKE_INITIAL_MOVE_INTERVAL
          (bd.moveInterval + SNAKE_INTERVAL_DECREASE) }, true)

/-- Modelled from the spec: raylib CheckCollisionCircleRec (the library
is an external collaborator, not part of src/); the spec calls it the
"rectangle-circle test against each non-head segment".  Standard
circle/axis-aligned-rectangle overlap via the rectangle centre. -/
def CheckCollisionCircleRec (cx cy radius rx ry rw rh : ℚ) : Bool :=
  let recCenterX := rx + rw / 2
  let recCenterY := ry + rh / 2
  let dx := |cx - recCenterX|
  let dy := |cy - recCenterY|
  if dx > rw / 2 + radius then false
  else if dy > rh / 2 + radius then false
  else if dx ≤ rw / 2 then true
  else if dy ≤ rh / 2 then true
  else decide ((dx - rw / 2) * (dx - rw / 2) + (dy - rh / 2) * (dy - rh / 2) ≤ radius * radius)

/-- Modelled from the spec: raylib CheckCollisionRecs (external library),
the axis-aligned rectangle overlap test used for body-segment versus
player collision. -/
def CheckCollisionRecs (r1x r1y r1w r1h r2x r2y r2w r2h : ℚ) : Bool :=
  decide (r1x < r2x + r2w ∧ r2x < r1x + r1w ∧ r1y < r2y + r2h ∧ r2y < r1y + r1h)

/-- The head-collision test of SnakeBossHandleBallCollision: the distance
from the ball centre to the head centre is below the sum of the radii. -/
def snakeHeadBallHit (bd : SnakeBossData) (b : Ball) : Bool :=
  match bd.segments with
  | [] => false
  | hseg :: _ =>
    sqrtLtB ((b.x - hseg.worldX) * (b.x - hseg.worldX)
      + (b.y - hseg.worldY) * (b.y - hseg.worldY)) (SNAKE_HEAD_RADIUS + b.radius)

/-- The per-segment body test of SnakeBossHandleBallCollision: the ball
circle against the segment's collision rectangle. -/
def segBallHit (b : Ball) (s : SnakeSegment) : Bool :=
  CheckCollisionCircleRec b.x b.y b.radius
    (s.worldX - SNAKE_SEGMENT_WIDTH / 2) (s.worldY - SNAKE_SEGMENT_HEIGHT / 2)
    SNAKE_SEGMENT_WIDTH SNAKE_SEGMENT_HEIGHT

/-- First non-head segment hit by the ball, in segment order, as in the
body loop of SnakeBossHandleBallCollision. -/
def snakeBodyBallHit (bd : SnakeBossData) (b : Ball) : Option SnakeSegment :=
  (bd.segments.drop 1).find? (segBallHit b)

/-- SnakeBossHandleBallCollision from snake_boss.c.  Returns the updated
boss, ball and (optional) player, plus the collision flag.  A `none`
player is the C null pointer (XP is then not awarded). -/
def SnakeBossHandleBallCollision (sq : ℚ → ℚ) (bd : SnakeBossData) (b : Ball)
    (player : Option PlayerEnt) : SnakeBossData × Ball × Option PlayerEnt × Bool :=
  match bd.segments with
  | [] => (bd, b, player, false)
  | hseg :: _ =>
    let headX := hseg.worldX
    let headY := hseg.worldY
    if snakeHeadBallHit bd b then
      if b.state = BallState.player then
        if bd.state ≠ SnakeBossState.shrinking ∧ bd.state ≠ SnakeBossState.defeated then
          let bd1 := { bd with state := SnakeBossState.shrinking, shrinkTimer := 0 }
          let r := SnakeBossShrink bd1
          let bd2 := if r.2 then r.1 else { r.1 with state := SnakeBossState.defeated }
          let b1 := BallApplyForce sq b ((b.x - headX) * (1/2)) ((b.y - headY) * (1/2))
          let player1 := player.map (fun p => (PlayerAwardXP p PLAYER_XP_PER_HIT).1)
          (bd2, b1, player1, true)
        else (bd, b, player, true)
      else
        if bd.state ≠ SnakeBossState.growing then
          let bd1 := { bd with state := SnakeBossState.growing, growTimer := 0 }
          let bd2 := SnakeBossGrow bd1
          let kickForce : ℚ := 6
          let b1 := BallApplyForce sq b ((b.x - headX) * kickForce) ((b.y - headY) * kickForce)
          let b2 := { b1 with
            state := BallState.snake,
            innerColor := CColor.red,
            outerColor := CColor.maroon }
          (bd2, b2, player, true)
        else (bd, b, player, true)
    else if b.state = BallState.player then
      match snakeBodyBallHit bd b with
      | some seg =>
        if bd.state ≠ SnakeBossState.shrinking ∧ bd.state ≠ SnakeBossState.defeated then
          let bd1 := { bd with state := SnakeBossState.shrinking, shrinkTimer := 0 }
          let r := SnakeBossShrink bd1
          let bd2 := if r.2 then r.1 else { r.1 with state := SnakeBossState.defeated }
          let b1 := BallApplyForce sq b ((b.x - seg.worldX) * (1/2)) ((b.y - seg.worldY) * (1/2))
          let player1 := player.map (fun p => (PlayerAwardXP p PLAYER_XP_PER_HIT).1)
          (bd2, b1, player1, true)
        else (bd, b, player, true)
      | none => (bd, b, player, false)
    else (bd, b, player, false)

/-- The per-segment body test of SnakeBossHandlePlayerCollision: segment
rectangle against player rectangle. -/
def segPlayerHit (p : PlayerEnt) (s : SnakeSegment) : Bool :=
  CheckCollisionRecs
    (s.worldX - SNAKE_SEGMENT_WIDTH / 2) (s.worldY - SNAKE_SEGMENT_HEIGHT / 2)
    SNAKE_SEGMENT_WIDTH SNAKE_SEGMENT_HEIGHT
    (p.x - p.width / 2) (p.y - p.height / 2) p.width p.height

/-- SnakeBossHandlePlayerCollision from snake_boss.c: damage and push the
player on head contact (10 damage, factor 5) or on body-segment contact
(5 damage, factor 3); health is floored at zero.  A `none` player is the
C null pointer. -/
def SnakeBossHandlePlayerCollision (bd : SnakeBossData) (player : Option PlayerEnt) :
    Option PlayerEnt × Bool :=
  match player with
  | none => (none, false)
  | some p =>
    match bd.segments with
    | [] => (some p, false)
    | hseg :: _ =>
      let headX := hseg.worldX
      let headY := hseg.worldY
      let dist2 := (p.x - headX) * (p.x - headX) + (p.y - headY) * (p.y - headY)
      let collisionRadius := (p.width + p.height) / 4
      if sqrtLtB dist2 (SNAKE_HEAD_RADIUS + collisionRadius) then
        let h1 := p.currentHealth - 10
        let h2 := if h1 < 0 then 0 else h1
        (some { p with
          currentHealth := h2,
          speedX := p.speedX + (p.x - headX) * 5,
          speedY := p.speedY + (p.y - headY) * 5 }, true)
      else
        match (bd.segments.drop 1).find? (segPlayerHit p) with
        | some seg =>
          let h1 := p.currentHealth - 5
          let h2 := if h1 < 0 then 0 else h1
          (some { p with
            currentHealth := h2,
            speedX := p.speedX + (p.x - seg.worldX) * 3,
            speedY := p.speedY + (p.y - seg.worldY) * 3 }, true)
        | none => (some p, false)

/-- SnakeBossUpdate from snake_boss.c: the per-frame state machine
(target acquisition, timed movement with replanning, growth and shrink
timers, terminal defeated state), followed by the entity-position sync
and the ball and player collision handlers.  `moveCount` models the C
function-static counter that forces replanning every third move. -/
def SnakeBossUpdate (sq : ℚ → ℚ) (bd : SnakeBossData) (w : World) (b : Ball)
    (player : Option PlayerEnt) (deltaTime : ℚ) (moveCount : ℤ) :
    SnakeBossData × Ball × Option PlayerEnt × ℤ :=
  if bd.segments.length ≤ 0 then (bd, b, player, moveCount)
  else
    let ballGridX := truncQ (b.x / TILE_WIDTH)
    let ballGridY := truncQ (b.y / TILE_HEIGHT)
    let core : SnakeBossData × ℤ :=
      match bd.state with
      | SnakeBossState.idle =>
        let bd1 := { bd with
          targetGridX := ballGridX,
          targetGridY := ballGridY,
          hasTarget := true }
        let bd2 := SnakeBossFindPath bd1 ballGridX ballGridY w
        ({ bd2 with state := SnakeBossState.moving }, moveCount)
      | SnakeBossState.tracking =>
        let bd1 := { bd with
          targetGridX := ballGridX,
          targetGridY := ballGridY,
          hasTarget := true }
        let bd2 := SnakeBossFindPath bd1 ballGridX ballGridY w
        ({ bd2 with state := SnakeBossState.moving }, moveCount)
      | SnakeBossState.moving =>
        let bd1 := { bd with moveTimer := bd.moveTimer + deltaTime }
        if bd1.moveTimer ≥ bd1.moveInterval then
          let bd2 := { bd1 with moveTimer := 0, currentDir := bd1.nextDir }
          let mv := SnakeBossMove bd2 w
          let bd3 := mv.1
          let atTarget :=
            match bd3.segments with
            | [] => false
            | h :: _ => decide (h.gridX = bd3.targetGridX ∧ h.gridY = bd3.targetGridY)
          let bd4 :=
            if atTarget then
              { bd3 with hasTarget := false, state := SnakeBossState.tracking }
            else if mv.2 = false then
              { bd3 with state := SnakeBossState.tracking, hasTarget := false }
            else bd3
          let mc1 := moveCount + 1
          if mc1 ≥ 3 then
            if ballGridX ≠ bd4.targetGridX ∨ ballGridY ≠ bd4.targetGridY then
              let bd5 := { bd4 with targetGridX := ballGridX, targetGridY := ballGridY }
              (SnakeBossFindPath bd5 ballGridX ballGridY w, 0)
            else (bd4, 0)
          else (bd4, mc1)
        else (bd1, moveCount)
      | SnakeBossState.growing =>
        let bd1 := { bd with growTimer := bd.growTimer + deltaTime }
        if bd1.growTimer ≥ SNAKE_GROW_TIME then
          ({ bd1 with
            growTimer := 0,
            state := SnakeBossState.tracking,
            hasTarget := false }, moveCount)
        else (bd1, moveCount)
      | SnakeBossState.shrinking =>
        let bd1 := { bd with shrinkTimer := bd.shrinkTimer + deltaTime }
        if bd1.shrinkTimer ≥ SNAKE_SHRINK_TIME then
          ({ bd1 with
            shrinkTimer := 0,
            state := SnakeBossState.tracking,
            hasTarget := false }, moveCount)
        else (bd1, moveCount)
      | SnakeBossState.defeated => (bd, moveCount)
    let bd6 := core.1
    let bd7 :=
      match bd6.segments with
      | [] => bd6
      | h :: _ => { bd6 with entityX := h.worldX, entityY := h.worldY }
    let r1 := SnakeBossHandleBallCollision sq bd7 b player
    let r2 := SnakeBossHandlePlayerCollision r1.1 r1.2.2.1
    (r1.1, r1.2.1, r2.1, core.2)

/-- Win-condition state machine tag (win_condition.h). -/
inductive WinState where
  | idle
  | playerScored
  | enemyScored
  | neutralHold
deriving DecidableEq

/-- WinCondition from win_condition.h: the hole geometry and the state
machine.  Thunder particles and flash text are rendering-only state that
feeds draw calls alone and is omitted. -/
structure WinCondition where
  posX : ℚ
  posY : ℚ
  radius : ℚ
  state : WinState
  stateTimer : ℚ
deriving DecidableEq

/-- An entity pointer as handed to the win-condition system; the payload
identifies the entity kind tag of entity.h. -/
inductive GameEntity where
  | ball (b : Ball)
  | player (p : PlayerEnt)
  | enemy (bd : SnakeBossData)
deriving DecidableEq

/-- The geometric test of WinConditionCheckBallInHole on a ball value:
the distance from the ball centre to the hole centre is below the hole
radius minus 0.8 of the ball radius. -/
def ballInHoleTest (wc : WinCondition) (b : Ball) : Bool :=
  sqrtLtB ((b.x - wc.posX) * (b.x - wc.posX) + (b.y - wc.posY) * (b.y - wc.posY))
    (wc.radius - b.radius * (4/5))

/-- WinConditionCheckBallInHole from win_condition.c: false for a null
entity or one that is not a ball, otherwise the distance test. -/
def WinConditionCheckBallInHole (wc : WinCondition) (e : Option GameEntity) : Bool :=
  match e with
  | some (GameEntity.ball b) => ballInHoleTest wc b
  | _ => false

/-- The bounded shrink loop of WinConditionHandlePlayerScore: apply up to
`n` shrinks, stopping and marking the boss defeated when a shrink
reports defeat. -/
def shrinkTimes : ℕ → SnakeBossData → SnakeBossData
  | 0, bd => bd
  | Nat.succ n, bd =>
    let r := SnakeBossShrink bd
    if r.2 then shrinkTimes n r.1
    else { r.1 with state := SnakeBossState.defeated }

/-- WinConditionHandlePlayerScore from win_condition.c, restricted to its
observable effect on the snake bosses in the entity list: every boss not
yet defeated takes WIN_PLAYER_SEGMENTS_SNAKEBOSS shrinks (stopping at
defeat) and, if it survives, enters the shrinking state.  Flash text and
thunder beams are rendering-only and omitted. -/
def WinConditionHandlePlayerScore (bosses : List SnakeBossData) : List SnakeBossData :=
  bosses.map (fun bd =>
    if bd.state ≠ SnakeBossState.defeated then
      let bd1 := shrinkTimes WIN_PLAYER_SEGMENTS_SNAKEBOSS bd
      if bd1.state ≠ SnakeBossState.defeated then
        { bd1 with state := SnakeBossState.shrinking, shrinkTimer := 0 }
      else bd1
    else bd)

/-- WinConditionHandleEnemyScore from win_condition.c, restricted to its
observable effect: the player takes WIN_ENEMY_DAMAGE_TO_PLAYER damage,
floored at zero health. -/
def WinConditionHandleEnemyScore (p : PlayerEnt) : PlayerEnt :=
  let h1 := p.currentHealth - WIN_ENEMY_DAMAGE_TO_PLAYER
  { p with currentHealth := if h1 < 0 then 0 else h1 }

/-- WinConditionHandleNeutralBall from win_condition.c: advance the hold
timer, pin the ball to the hole centre with zero velocity and neutral
white ownership, and report whether the hold time has elapsed. -/
def WinConditionHandleNeutralBall (wc : WinCondition) (b : Ball) (deltaTime : ℚ) :
    WinCondition × Ball × Bool :=
  let wc1 := { wc with stateTimer := wc.stateTimer + deltaTime }
  let b1 := { b with
    x := wc.posX,
    y := wc.posY,
    speedX := 0,
    speedY := 0,
    state := BallState.neutral,
    innerColor := CColor.white,
    outerColor := CColor.white }
  (wc1, b1, decide (wc1.stateTimer ≥ WIN_NEUTRAL_BALL_HOLD_TIME))

/-- WinConditionEjectBall from win_condition.c.  The random ejection
angle is abstracted by its cosine and sine (c, s); the ball is forced
neutral, kicked along the angle at 1.5 times BALL_INITIAL_SPEED, and
placed just outside the hole along the same angle. -/
def WinConditionEjectBall (sq : ℚ → ℚ) (c s : ℚ) (wc : WinCondition) (b : Ball) : Ball :=
  let b1 := { b with
    state := BallState.neutral,
    innerColor := CColor.white,
    outerColor := CColor.white }
  let speed := BALL_INITIAL_SPEED * (3/2)
  let b2 := BallApplyForce sq b1 (c * speed) (s * speed)
  { b2 with
    x := wc.posX + c * (wc.radius + b2.radius),
    y := wc.posY + s * (wc.radius + b2.radius) }

/-- WinConditionUpdate from win_condition.c: the per-frame state machine.
In idle, a captured ball branches on its ownership (player score, enemy
score, or neutral hold) and is then stopped and centred; the transitional
scored states fall through to neutral hold; neutral hold runs the hold
timer and ejects the ball when it elapses.  The entity list is
represented by its snake bosses, the only entities the handlers mutate. -/
def WinConditionUpdate (sq : ℚ → ℚ) (c s : ℚ) (wc : WinCondition) (b : Ball)
    (p : PlayerEnt) (bosses : List SnakeBossData) (deltaTime : ℚ) :
    WinCondition × Ball × PlayerEnt × List SnakeBossData :=
  match wc.state with
  | WinState.idle =>
    if ballInHoleTest wc b then
      let branched : WinCondition × PlayerEnt × List SnakeBossData :=
        if b.state = BallState.player then
          ({ wc with state := WinState.playerScored }, p, WinConditionHandlePlayerScore bosses)
        else if b.state = BallState.snake then
          ({ wc with state := WinState.enemyScored }, WinConditionHandleEnemyScore p, bosses)
        else
          ({ wc with state := WinState.neutralHold, stateTimer := 0 }, p, bosses)
      let b1 := { b with speedX := 0, speedY := 0, x := wc.posX, y := wc.posY }
      (branched.1, b1, branched.2.1, branched.2.2)
    else (wc, b, p, bosses)
  | WinState.playerScored =>
    ({ wc with state := WinState.neutralHold, stateTimer := 0 }, b, p, bosses)
  | WinState.enemyScored =>
    ({ wc with state := WinState.neutralHold, stateTimer := 0 }, b, p, bosses)
  | WinState.neutralHold =>
    let r := WinConditionHandleNeutralBall wc b deltaTime
    if r.2.2 then
      let b1 := WinConditionEjectBall sq c s r.1 r.2.1
      ({ r.1 with state := WinState.idle }, b1, p, bosses)
    else (r.1, r.2.1, p, bosses)

-- Shared helper lemmas and sample values used by witnesses.

theorem SnakeBossIsValidPosition_iff (bd : SnakeBossData) (gx gy : ℤ) (w : World) :
    SnakeBossIsValidPosition bd gx gy w = true ↔
      (WorldIsWallAtPosition (some w) (gx * TILE_WIDTH + TILE_WIDTH / 2)
          (gy * TILE_HEIGHT + TILE_HEIGHT / 2) = false ∧
        ∀ s ∈ bd.segments.drop 1, ¬(s.gridX = gx ∧ s.gridY = gy)) := by
  unfold SnakeBossIsValidPosition
  simp only [List.any_eq_true, decide_eq_true_eq]
  split_ifs with h1 h2 <;> simp_all

/-- Identity stand-in for the abstracted square-root parameter where a
witness needs a concrete one and the clamp branch is not taken. -/
def sqId : ℚ → ℚ := fun q => q

/-- The standard world of config.h: 25 by 40 tiles. -/
def sampleWorld : World := { width := 25, height := 40 }

/-- A concrete ball for witnesses: the BALL_TYPE_NORMAL values of
BallCreate, placed at tile (5, 5). -/
def sampleBall : Ball :=
  { x := 275/2, y := 275/2, speedX := 0, speedY := 0, active := true,
    btype := BallType.normal, state := BallState.neutral, radius := BALL_RADIUS,
    bounceFactor := BALL_BOUNCE_FACTOR, friction := BALL_FRICTION, damage := 10,
    hasSpecialEffect := false, innerColor := CColor.red, outerColor := CColor.red }

/-- A concrete player for witnesses, far from the sample ball. -/
def samplePlayer : PlayerEnt :=
  { x := 300, y := 300, width := 25, height := 25, speedX := 0, speedY := 0,
    maxHealth := 100, currentHealth := 100, currentXP := 0, maxXP := 100,
    kickForce := 5, moveSpeed := 1, level := 1, state := PlayerState.alive }

/-- The sample ball launched rightwards faster than BALL_MAX_SPEED. -/
def fastBall : Ball := { sampleBall with speedX := 9 }

/-- One BallUpdate step of the fast ball, in open space far from the
player, with the identity square-root stand-in (no clamp branch runs). -/
def fastBallAfter : Ball := BallUpdate sqId fastBall sampleWorld samplePlayer 1

/-- Claim C9: a null world and every out-of-bounds tile query are treated
as walls (fail-closed); WorldIsWallAtPosition answers false exactly for
in-bounds tiles outside the stub's wall layout, hence only for in-bounds
non-wall tiles. -/
theorem WorldIsWallAtPosition_fail_closed (w : World) (x y : ℚ) :
    WorldIsWallAtPosition none x y = true ∧
    ((truncQ (x / TILE_WIDTH) < 0 ∨ w.width ≤ truncQ (x / TILE_WIDTH) ∨
        truncQ (y / TILE_HEIGHT) < 0 ∨ w.height ≤ truncQ (y / TILE_HEIGHT)) →
      WorldIsWallAtPosition (some w) x y = true) ∧
    (WorldIsWallAtPosition (some w) x y = false ↔
      (0 ≤ truncQ (x / TILE_WIDTH) ∧ truncQ (x / TILE_WIDTH) < w.width ∧
       0 ≤ truncQ (y / TILE_HEIGHT) ∧ truncQ (y / TILE_HEIGHT) < w.height ∧
       ¬(truncQ (x / TILE_WIDTH) = 0 ∨ truncQ (y / TILE_HEIGHT) = 0 ∨
         truncQ (x / TILE_WIDTH) = w.width - 1 ∨ truncQ (y / TILE_HEIGHT) = w.height - 1) ∧
       ¬(truncQ (y / TILE_HEIGHT) = Int.tdiv w.height 2 ∧
         |truncQ (x / TILE_WIDTH) - Int.tdiv w.width 2| ≤ 5) ∧
       ¬(truncQ (x / TILE_WIDTH) = Int.tdiv w.width 2 - 10 ∧
         |truncQ (y / TILE_HEIGHT) - Int.tdiv w.height 2| ≤ 3) ∧
       ¬(truncQ (x / TILE_WIDTH) = Int.tdiv w.width 2 + 10 ∧
         |truncQ (y / TILE_HEIGHT) - Int.tdiv w.height 2| ≤ 3))) := by
  refine ⟨rfl, ?_, ?_⟩
  · intro h
    simp only [WorldIsWallAtPosition]
    rw [if_pos h]
  · simp only [WorldIsWallAtPosition]
    split_ifs with h1 h2 h3 h4 h5 <;> simp_all <;> omega

/-- Claim C5: WinConditionCheckBallInHole answers true exactly when the
Euclidean distance from the ball centre to the hole centre is strictly
below the hole radius minus 0.8 of the ball radius (so mere edge overlap
does not capture), and false for a null or non-ball entity. -/
theorem WinConditionCheckBallInHole_spec (wc : WinCondition) (b : Ball)
    (p : PlayerEnt) (bd : SnakeBossData) :
    WinConditionCheckBallInHole wc none = false ∧
    WinConditionCheckBallInHole wc (some (GameEntity.player p)) = false ∧
    WinConditionCheckBallInHole wc (some (GameEntity.enemy bd)) = false ∧
    (WinConditionCheckBallInHole wc (some (GameEntity.ball b)) = true ↔
      Real.sqrt (((b.x : ℝ) - (wc.posX : ℝ)) ^ 2 + ((b.y : ℝ) - (wc.posY : ℝ)) ^ 2)
        < (wc.radius : ℝ) - (4/5) * (b.radius : ℝ)) := by
  refine ⟨rfl, rfl, rfl, ?_⟩
  have hc : WinConditionCheckBallInHole wc (some (GameEntity.ball b))
      = ballInHoleTest wc b := rfl
  have e1 : (((b.x - wc.posX) * (b.x - wc.posX)
        + (b.y - wc.posY) * (b.y - wc.posY) : ℚ) : ℝ)
      = ((b.x : ℝ) - (wc.posX : ℝ)) ^ 2 + ((b.y : ℝ) - (wc.posY : ℝ)) ^ 2 := by
    push_cast
    ring
  have e2 : ((wc.radius - b.radius * (4/5) : ℚ) : ℝ)
      = (wc.radius : ℝ) - (4/5) * (b.radius : ℝ) := by
    push_cast
    ring
  rw [hc]
  unfold ballInHoleTest
  rw [sqrtLtB_iff _ _ (add_nonneg (mul_self_nonneg _) (mul_self_nonneg _)), e1, e2]

/-- Claim C10: an inactive ball is left completely unchanged (position,
velocity, active flag and payload) by BallUpdate and by BallApplyForce,
for every world, player, force and delta-time argument. -/
theorem BallUpdate_inactive_noop (sq : ℚ → ℚ) (b : Ball) (w : World) (p : PlayerEnt)
    (dt forceX forceY : ℚ) (h : b.active = false) :
    BallUpdate sq b w p dt = b ∧ BallApplyForce sq b forceX forceY = b := by
  unfold BallUpdate BallApplyForce
  rw [h]
  simp

/-- Witness for claim C10 at a concrete inactive ball. -/
theorem BallUpdate_inactive_noop_witness :
    BallUpdate sqId { sampleBall with active := false } sampleWorld samplePlayer 1
        = { sampleBall with active := false } ∧
      BallApplyForce sqId { sampleBall with active := false } 3 4
        = { sampleBall with active := false } :=
  BallUpdate_inactive_noop sqId { sampleBall with active := false } sampleWorld
    samplePlayer 1 3 4 rfl


theorem map_grid_zipWith (l1 : List SnakeSegment) (l2 : List (ℤ × ℤ))
    (h : l2.length ≤ l1.length) :
    (List.zipWith (fun s g => { s with gridX := g.1, gridY := g.2 }) l1 l2).map
      (fun s => (s.gridX, s.gridY)) = l2 := by
  induction l1 generalizing l2 with
  | nil => cases l2 <;> simp_all
  | cons a t ih => cases l2 <;> simp_all

theorem shiftSegments_grids (hseg : SnakeSegment) (rest : List SnakeSegment) (nx ny : ℤ) :
    (shiftSegments (hseg :: rest) nx ny).map (fun s => (s.gridX, s.gridY)) =
      (nx, ny) :: ((hseg :: rest).dropLast.map (fun s => (s.gridX, s.gridY))) := by
  unfold shiftSegments
  rw [map_grid_zipWith _ _ (by simp [List.length_dropLast])]
  simp [List.map_dropLast]

theorem shiftSegments_length (hseg : SnakeSegment) (rest : List SnakeSegment) (nx ny : ℤ) :
    (shiftSegments (hseg :: rest) nx ny).length = (hseg :: rest).length := by
  unfold shiftSegments
  simp [List.length_zipWith, List.length_dropLast]

/-- Claim C4: SnakeBossMove succeeds exactly when the cell one step ahead
of the head is neither a wall nor occupied by a non-head segment; on
success every non-head segment takes the previous grid position of its
predecessor, the head takes the new cell, and all world coordinates are
recomputed from grid coordinates; on failure the boss data (segments,
count, move interval) is returned unchanged. -/
theorem SnakeBossMove_spec (bd : SnakeBossData) (w : World) (hseg : SnakeSegment)
    (rest : List SnakeSegment) (hsegs : bd.segments = hseg :: rest) :
    ((SnakeBossMove bd w).2 = true ↔
      (WorldIsWallAtPosition (some w)
          (((hseg.gridX + (dirStep bd.currentDir).1 : ℤ) : ℚ) * TILE_WIDTH + TILE_WIDTH / 2)
          (((hseg.gridY + (dirStep bd.currentDir).2 : ℤ) : ℚ) * TILE_HEIGHT + TILE_HEIGHT / 2)
          = false ∧
        ∀ s ∈ rest, ¬(s.gridX = hseg.gridX + (dirStep bd.currentDir).1 ∧
          s.gridY = hseg.gridY + (dirStep bd.currentDir).2))) ∧
    ((SnakeBossMove bd w).2 = false → (SnakeBossMove bd w).1 = bd) ∧
    ((SnakeBossMove bd w).2 = true →
      ((SnakeBossMove bd w).1.segments.map (fun s => (s.gridX, s.gridY)) =
          (hseg.gridX + (dirStep bd.currentDir).1, hseg.gridY + (dirStep bd.currentDir).2)
            :: (bd.segments.dropLast.map (fun s => (s.gridX, s.gridY))) ∧
        (SnakeBossMove bd w).1.segments.length = bd.segments.length ∧
        (∀ s ∈ (SnakeBossMove bd w).1.segments,
          s.worldX = s.gridX * TILE_WIDTH + TILE_WIDTH ∧
          s.worldY = s.gridY * TILE_HEIGHT + TILE_HEIGHT) ∧
        (SnakeBossMove bd w).1.moveInterval = bd.moveInterval ∧
        (SnakeBossMove bd w).1.state = bd.state ∧
        (SnakeBossMove bd w).1.currentDir = bd.currentDir)) := by
  have hvalid := SnakeBossIsValidPosition_iff bd (hseg.gridX + (dirStep bd.currentDir).1)
    (hseg.gridY + (dirStep bd.currentDir).2) w
  rw [hsegs] at hvalid
  simp only [List.drop_succ_cons, List.drop_zero] at hvalid
  rcases hv : SnakeBossIsValidPosition bd (hseg.gridX + (dirStep bd.currentDir).1)
      (hseg.gridY + (dirStep bd.currentDir).2) w with _ | _
  · have hmv : SnakeBossMove bd w = (bd, false) := by
      simp only [SnakeBossMove, hsegs]
      rw [if_pos]
      exact hv
    rw [hmv]
    refine ⟨?_, fun _ => rfl, fun hcon => by simp at hcon⟩
    simp only [Bool.false_eq_true, false_iff]
    intro hrhs
    rw [hv] at hvalid
    exact absurd (hvalid.mpr hrhs) (by simp)
  · have hmv : SnakeBossMove bd w = (SnakeBossUpdateSegments { bd with segments := shiftSegments (hseg :: rest) (hseg.gridX + (dirStep bd.currentDir).1) (hseg.gridY + (dirStep bd.currentDir).2) }, true) := by
      simp only [SnakeBossMove, hsegs]
      rw [hv]
      simp
    rw [hmv]
    refine ⟨by simp only [true_iff]; exact hvalid.mp hv, fun hcon => by simp at hcon,
      fun _ => ?_⟩
    have hshape : ∃ a t, shiftSegments (hseg :: rest) (hseg.gridX + (dirStep bd.currentDir).1)
        (hseg.gridY + (dirStep bd.currentDir).2) = a :: t := by
      unfold shiftSegments
      simp [List.zipWith]
    obtain ⟨a, t, hat⟩ := hshape
    have hupd : SnakeBossUpdateSegments { bd with segments := shiftSegments (hseg :: rest) (hseg.gridX + (dirStep bd.currentDir).1) (hseg.gridY + (dirStep bd.currentDir).2) } = { bd with segments := (shiftSegments (hseg :: rest) (hseg.gridX + (dirStep bd.currentDir).1) (hseg.gridY + (dirStep bd.currentDir).2)).map (fun s => { s with worldX := s.gridX * TILE_WIDTH + (2 * TILE_WIDTH) / 2, worldY := s.gridY * TILE_HEIGHT + (2 * TILE_HEIGHT) / 2 }), entityX := a.gridX * TILE_WIDTH + (2 * TILE_WIDTH) / 2, entityY := a.gridY * TILE_HEIGHT + (2 * TILE_HEIGHT) / 2 } := by
      simp only [SnakeBossUpdateSegments, hat]
      simp
    rw [hupd]
    refine ⟨?_, ?_, ?_, rfl, rfl, rfl⟩
    · simp only [List.map_map]
      have hcomp : ((fun s => (s.gridX, s.gridY)) ∘ (fun s : SnakeSegment =>
          { s with worldX := s.gridX * TILE_WIDTH + (2 * TILE_WIDTH) / 2,
                   worldY := s.gridY * TILE_HEIGHT + (2 * TILE_HEIGHT) / 2 }))
          = (fun s : SnakeSegment => (s.gridX, s.gridY)) := rfl
      rw [hcomp, shiftSegments_grids, hsegs]
    · simp [shiftSegments_length, hsegs]
    · intro s hs
      simp only [List.mem_map] at hs
      obtain ⟨s0, _, rfl⟩ := hs
      constructor
      · show s0.gridX * TILE_WIDTH + (2 * TILE_WIDTH) / 2
          = s0.gridX * TILE_WIDTH + TILE_WIDTH
        norm_num [TILE_WIDTH]
      · show s0.gridY * TILE_HEIGHT + (2 * TILE_HEIGHT) / 2
          = s0.gridY * TILE_HEIGHT + TILE_HEIGHT
        norm_num [TILE_HEIGHT]

/-- Concrete head segment at grid (5, 5) for witnesses. -/
def sampleSegA : SnakeSegment := { gridX := 5, gridY := 5, worldX := 150, worldY := 150 }

/-- Concrete body segment at grid (4, 5) for witnesses. -/
def sampleSegB : SnakeSegment := { gridX := 4, gridY := 5, worldX := 125, worldY := 150 }

/-- A concrete two-segment boss heading right, for witnesses. -/
def sampleBoss : SnakeBossData :=
  { state := SnakeBossState.moving, segments := [sampleSegA, sampleSegB],
    currentDir := Direction.right, nextDir := Direction.right,
    targetGridX := 10, targetGridY := 5, hasTarget := true,
    moveTimer := 0, moveInterval := 1/5, growTimer := 0, shrinkTimer := 0,
    entityX := 150, entityY := 150 }

/-- Witness for claim C4: the sample boss at (5, 5) heading right moves
successfully (cell (6, 5) of the standard world is free). -/
theorem SnakeBossMove_spec_witness : (SnakeBossMove sampleBoss sampleWorld).2 = true :=
  (SnakeBossMove_spec sampleBoss sampleWorld sampleSegA [sampleSegB] rfl).1.mpr
    ⟨by norm_num [WorldIsWallAtPosition, truncQ, sampleWorld, sampleBoss, sampleSegA,
        dirStep, TILE_WIDTH, TILE_HEIGHT, Int.floor_eq_iff, Int.tdiv],
      by simp [sampleSegB, sampleSegA, sampleBoss, dirStep]⟩

theorem SnakeBossHandleBallCollision_miss (sq : ℚ → ℚ) (bd : SnakeBossData) (b : Ball)
    (player : Option PlayerEnt) (h1 : snakeHeadBallHit bd b = false)
    (h2 : snakeBodyBallHit bd b = none) :
    SnakeBossHandleBallCollision sq bd b player = (bd, b, player, false) := by
  unfold SnakeBossHandleBallCollision
  cases hsegs : bd.segments with
  | nil => rfl
  | cons hseg rest =>
    by_cases hb : b.state = BallState.player <;>
      simp [h1, h2, hb]

theorem BallApplyForce_state (sq : ℚ → ℚ) (b : Ball) (fx fy : ℚ) :
    (BallApplyForce sq b fx fy).state = b.state := by
  unfold BallApplyForce
  dsimp only
  split_ifs <;> rfl

theorem BallApplyForce_noclamp (sq : ℚ → ℚ) (b : Ball) (fx fy : ℚ)
    (hact : b.active = true)
    (h : sqrtGtB ((b.speedX + fx) * (b.speedX + fx) + (b.speedY + fy) * (b.speedY + fy))
      BALL_MAX_SPEED = false) :
    BallApplyForce sq b fx fy = { b with speedX := b.speedX + fx, speedY := b.speedY + fy } := by
  unfold BallApplyForce
  rw [hact]
  simp [h]

/-- Square-root stand-in for the revival trace below: the only magnitude
the trace ever passes to it is 900, whose root is 30. -/
def sqC2 : ℚ → ℚ := fun _ => 30

/-- A defeated boss reduced to its head segment at grid (5, 5). -/
def defeatedBoss : SnakeBossData :=
  { state := SnakeBossState.defeated, segments := [sampleSegA],
    currentDir := Direction.right, nextDir := Direction.right,
    targetGridX := 10, targetGridY := 5, hasTarget := false,
    moveTimer := 0, moveInterval := 1/5, growTimer := 0, shrinkTimer := 0,
    entityX := 150, entityY := 150 }

/-- A neutral ball resting against the head of the defeated boss. -/
def reviveBall : Ball := { sampleBall with x := 155, y := 150 }

/-- The ball on a later frame, far from the boss (the revival kick sends
it away at the speed cap); the handler has made it snake-owned. -/
def farBall : Ball :=
  { sampleBall with x := 500, y := 500, state := BallState.snake }

/-- Update frame 1: the defeated boss with the neutral ball on its head. -/
def bossU1 : SnakeBossData :=
  (SnakeBossUpdate sqC2 defeatedBoss sampleWorld reviveBall none 1 0).1

/-- Update frame 2: the growth animation elapses. -/
def bossU2 : SnakeBossData :=
  (SnakeBossUpdate sqC2 bossU1 sampleWorld farBall none 2 0).1

/-- Update frame 3: tracking reacquires the ball and queues a direction. -/
def bossU3 : SnakeBossData :=
  (SnakeBossUpdate sqC2 bossU2 sampleWorld farBall none 1 0).1

/-- Update frame 4: the revived boss moves. -/
def bossU4 : SnakeBossData :=
  (SnakeBossUpdate sqC2 bossU3 sampleWorld farBall none 1 0).1

/-- Claim C2 counterexample: a defeated boss does make further moves on
subsequent updates.  The collision handler still runs in the defeated
state and its grow guard only excludes the growing state, so a neutral
ball touching the head of a defeated boss grows it and puts it in the
growing state (frame 1); the growth animation then elapses (frame 2),
tracking queues a direction (frame 3), and the boss moves: its head
leaves grid column 5 for column 6 (frame 4). -/
theorem SnakeBossShrink_counterexample :
    defeatedBoss.state = SnakeBossState.defeated ∧
    defeatedBoss.segments.length = 1 ∧
    reviveBall.state = BallState.neutral ∧
    bossU1.state = SnakeBossState.growing ∧
    bossU1.segments.length = 2 ∧
    bossU2.state = SnakeBossState.tracking ∧
    bossU3.state = SnakeBossState.moving ∧
    bossU4.segments.head?.map SnakeSegment.gridX = some 6 ∧
    defeatedBoss.segments.head?.map SnakeSegment.gridX = some 5 := by
  have e1 : bossU1 =
      { state := SnakeBossState.growing, segments := [sampleSegA, sampleSegA],
        currentDir := Direction.right, nextDir := Direction.right,
        targetGridX := 10, targetGridY := 5, hasTarget := false,
        moveTimer := 0, moveInterval := 3/20, growTimer := 0, shrinkTimer := 0,
        entityX := 150, entityY := 150 } := by
    norm_num [bossU1, SnakeBossUpdate, defeatedBoss, reviveBall, sampleBall, sampleSegA,
      sampleWorld, sqC2, truncQ, TILE_WIDTH, TILE_HEIGHT, SnakeBossHandleBallCollision,
      snakeHeadBallHit, snakeBodyBallHit, segBallHit, sqrtLtB, sqrtGtB,
      SNAKE_HEAD_RADIUS, BALL_RADIUS, BALL_MAX_SPEED, BallApplyForce, SnakeBossGrow,
      SNAKE_MIN_MOVE_INTERVAL, SNAKE_INTERVAL_DECREASE, SnakeBossHandlePlayerCollision,
      max_def, min_def, Int.floor_eq_iff]
    simp
  have e2 : bossU2 =
      { state := SnakeBossState.tracking, segments := [sampleSegA, sampleSegA],
        currentDir := Direction.right, nextDir := Direction.right,
        targetGridX := 10, targetGridY := 5, hasTarget := false,
        moveTimer := 0, moveInterval := 3/20, growTimer := 0, shrinkTimer := 0,
        entityX := 150, entityY := 150 } := by
    unfold bossU2
    rw [e1]
    norm_num [SnakeBossUpdate, farBall, sampleBall, sampleSegA, sampleWorld, sqC2,
      truncQ, TILE_WIDTH, TILE_HEIGHT, SnakeBossHandleBallCollision, snakeHeadBallHit,
      snakeBodyBallHit, segBallHit, sqrtLtB, SNAKE_HEAD_RADIUS, BALL_RADIUS,
      SNAKE_GROW_TIME, SnakeBossHandlePlayerCollision, Int.floor_eq_iff]
    simp
  have e3 : bossU3 =
      { state := SnakeBossState.moving, segments := [sampleSegA, sampleSegA],
        currentDir := Direction.right, nextDir := Direction.right,
        targetGridX := 20, targetGridY := 20, hasTarget := true,
        moveTimer := 0, moveInterval := 3/20, growTimer := 0, shrinkTimer := 0,
        entityX := 150, entityY := 150 } := by
    unfold bossU3
    rw [e2]
    norm_num [SnakeBossUpdate, farBall, sampleBall, sampleSegA, sampleWorld, sqC2,
      truncQ, TILE_WIDTH, TILE_HEIGHT, SnakeBossFindPath, bestDirLoop,
      SnakeBossIsValidPosition, WorldIsWallAtPosition, dirOpposite, dirStep,
      SnakeBossHandleBallCollision, snakeHeadBallHit, snakeBodyBallHit, segBallHit,
      sqrtLtB, SNAKE_HEAD_RADIUS, BALL_RADIUS, SnakeBossHandlePlayerCollision,
      Int.floor_eq_iff, Int.tdiv]
    norm_num
    simp
    try norm_num
    try simp
  have e4 : bossU4 =
      { state := SnakeBossState.moving,
        segments := [{ gridX := 6, gridY := 5, worldX := 175, worldY := 150 },
          { gridX := 5, gridY := 5, worldX := 150, worldY := 150 }],
        currentDir := Direction.right, nextDir := Direction.right,
        targetGridX := 20, targetGridY := 20, hasTarget := true,
        moveTimer := 0, moveInterval := 3/20, growTimer := 0, shrinkTimer := 0,
        entityX := 175, entityY := 150 } := by
    unfold bossU4
    rw [e3]
    norm_num [SnakeBossUpdate, farBall, sampleBall, sampleSegA, sampleWorld, sqC2,
      truncQ, TILE_WIDTH, TILE_HEIGHT, SnakeBossMove, shiftSegments,
      SnakeBossUpdateSegments, SnakeBossIsValidPosition, WorldIsWallAtPosition,
      dirStep, SnakeBossHandleBallCollision, snakeHeadBallHit, snakeBodyBallHit,
      segBallHit, sqrtLtB, SNAKE_HEAD_RADIUS, BALL_RADIUS,
      SnakeBossHandlePlayerCollision, Int.floor_eq_iff, Int.tdiv]
    simp
  exact ⟨rfl, rfl, rfl, by rw [e1], by rw [e1]; rfl, by rw [e2], by rw [e3],
    by rw [e4]; rfl, rfl⟩

/-- Claim C2 (amended): SnakeBossShrink with at least two segments
removes exactly the last segment (count down by one, head retained) and
returns true; with one segment it returns false and changes nothing, so
the count stays at least 1 while the boss is alive; the caller turns
that defeat signal into the defeated state; a defeated boss makes no
further moves on subsequent updates only while the ball stays out of
contact: a head touch by a ball that is not player-owned revives it
(the handler grows it by one segment, flips the ball to snake ownership
and puts the boss in the growing state, from which it re-enters
tracking and moving). -/
theorem SnakeBossShrink_spec (sq : ℚ → ℚ) (bd : SnakeBossData) (b : Ball)
    (player : Option PlayerEnt) (w : World) (dt : ℚ) (mc : ℤ) :
    (2 ≤ bd.segments.length →
      ((SnakeBossShrink bd).2 = true ∧
       (SnakeBossShrink bd).1.segments = bd.segments.dropLast ∧
       (SnakeBossShrink bd).1.segments.length + 1 = bd.segments.length ∧
       (SnakeBossShrink bd).1.segments.head? = bd.segments.head?)) ∧
    (bd.segments.length = 1 →
      ((SnakeBossShrink bd).2 = false ∧ (SnakeBossShrink bd).1 = bd)) ∧
    (bd.segments.length = 1 → b.state = BallState.player →
      snakeHeadBallHit bd b = true →
      bd.state ≠ SnakeBossState.shrinking → bd.state ≠ SnakeBossState.defeated →
      ((SnakeBossHandleBallCollision sq bd b player).1.state = SnakeBossState.defeated ∧
       (SnakeBossHandleBallCollision sq bd b player).1.segments.length = 1)) ∧
    (bd.state = SnakeBossState.defeated → snakeHeadBallHit bd b = false →
      snakeBodyBallHit bd b = none →
      ((SnakeBossUpdate sq bd w b player dt mc).1.segments = bd.segments ∧
       (SnakeBossUpdate sq bd w b player dt mc).1.state = SnakeBossState.defeated ∧
       (SnakeBossUpdate sq bd w b player dt mc).2.1 = b)) ∧
    (bd.state = SnakeBossState.defeated → snakeHeadBallHit bd b = true →
      b.state ≠ BallState.player →
      ((SnakeBossHandleBallCollision sq bd b player).1.state = SnakeBossState.growing ∧
       (SnakeBossHandleBallCollision sq bd b player).1.segments.length
         = bd.segments.length + 1 ∧
       (SnakeBossHandleBallCollision sq bd b player).2.1.state = BallState.snake ∧
       (SnakeBossHandleBallCollision sq bd b player).2.2.2 = true)) := by
  refine ⟨?_, ?_, ?_, ?_, ?_⟩
  · intro hlen
    have hgt : ¬(bd.segments.length ≤ 1) := by omega
    unfold SnakeBossShrink
    rw [if_neg hgt]
    refine ⟨rfl, rfl, ?_, ?_⟩
    · simp only [List.length_dropLast]
      omega
    · rcases hsegs : bd.segments with _ | ⟨a, _ | ⟨c, t⟩⟩
      · rw [hsegs] at hlen; simp at hlen
      · rw [hsegs] at hlen; simp at hlen
      · simp [hsegs, List.dropLast]
  · intro hlen
    have hle : bd.segments.length ≤ 1 := by omega
    unfold SnakeBossShrink
    rw [if_pos hle]
    exact ⟨rfl, rfl⟩
  · intro hlen hb hhit hs1 hs2
    rcases hsegs : bd.segments with _ | ⟨hseg, rest⟩
    · rw [hsegs] at hlen; simp at hlen
    · have hrest : rest = [] := by
        rw [hsegs] at hlen
        simpa using hlen
      subst hrest
      unfold SnakeBossHandleBallCollision SnakeBossShrink
      simp [hsegs, hhit, hb, hs1, hs2]
  · intro hst h1 h2
    rcases hsegs : bd.segments with _ | ⟨a, t⟩
    · have hup : SnakeBossUpdate sq bd w b player dt mc = (bd, b, player, mc) := by
        unfold SnakeBossUpdate
        rw [if_pos (by simp [hsegs])]
      rw [hup]
      exact ⟨hsegs, hst, rfl⟩
    · have hlen : ¬(bd.segments.length ≤ 0) := by simp [hsegs]
      have h1' : snakeHeadBallHit { bd with entityX := a.worldX, entityY := a.worldY } b
          = false := h1
      have h2' : snakeBodyBallHit { bd with entityX := a.worldX, entityY := a.worldY } b
          = none := h2
      have hmiss := SnakeBossHandleBallCollision_miss sq
        { bd with entityX := a.worldX, entityY := a.worldY } b player h1' h2'
      have hcore : SnakeBossUpdate sq bd w b player dt mc = ((SnakeBossHandleBallCollision sq { bd with entityX := a.worldX, entityY := a.worldY } b player).1, (SnakeBossHandleBallCollision sq { bd with entityX := a.worldX, entityY := a.worldY } b player).2.1, (SnakeBossHandlePlayerCollision (SnakeBossHandleBallCollision sq { bd with entityX := a.worldX, entityY := a.worldY } b player).1 (SnakeBossHandleBallCollision sq { bd with entityX := a.worldX, entityY := a.worldY } b player).2.2.1).1, mc) := by
        unfold SnakeBossUpdate
        rw [if_neg hlen]
        conv_lhs => rw [hst]
        simp only [hsegs]
      rw [hcore, hmiss]
      exact ⟨hsegs, hst, rfl⟩
  · intro hst hhit hb
    rcases hsegs : bd.segments with _ | ⟨hseg, rest⟩
    · exfalso
      unfold snakeHeadBallHit at hhit
      rw [hsegs] at hhit
      simp at hhit
    · have hbiff : (b.state = BallState.player) = False := by simp [hb]
      have hg : bd.state ≠ SnakeBossState.growing := by
        rw [hst]
        intro hcon
        exact SnakeBossState.noConfusion hcon
      have hlseg : (hseg :: rest).getLast? = some ((hseg :: rest).getLast (by simp)) :=
        List.getLast?_eq_getLast _ (by simp)
      unfold SnakeBossHandleBallCollision SnakeBossGrow
      simp [hsegs, hhit, hbiff, hg, hlseg, BallApplyForce_state]


theorem bestDirLoop_found (l : List (Direction × ℤ × Bool)) (acc : Direction × ℤ × Bool) :
    (bestDirLoop l acc).2.2 = (acc.2.2 || l.any (fun e => e.2.2)) := by
  induction l generalizing acc with
  | nil => simp [bestDirLoop]
  | cons e rest ih =>
    simp only [bestDirLoop, List.any_cons]
    split_ifs with h
    · rw [ih]
      have he : e.2.2 = true := by
        simp only [Bool.and_eq_true] at h
        exact h.1
      simp [he]
    · rw [ih]
      rcases he : e.2.2 with _ | _
      · simp [he]
      · have hacc : acc.2.2 = true := by
          by_contra hacc
          rw [Bool.not_eq_true] at hacc
          rw [he, hacc] at h
          simp at h
        simp [hacc]

theorem bestDirLoop_id (l : List (Direction × ℤ × Bool)) (acc : Direction × ℤ × Bool)
    (h : ∀ e ∈ l, e.2.2 = false) : bestDirLoop l acc = acc := by
  induction l generalizing acc with
  | nil => rfl
  | cons e rest ih =>
    have he := h e (by simp)
    simp only [bestDirLoop, he, Bool.false_and, if_false]
    exact ih acc fun e' he' => h e' (by simp [he'])

theorem bestDirLoop_mono (l : List (Direction × ℤ × Bool)) (acc : Direction × ℤ × Bool)
    (h : acc.2.2 = true) :
    (bestDirLoop l acc).2.1 ≤ acc.2.1 ∧ (bestDirLoop l acc).2.2 = true := by
  induction l generalizing acc with
  | nil => exact ⟨le_refl _, h⟩
  | cons e rest ih =>
    simp only [bestDirLoop]
    split_ifs with hc
    · rw [h] at hc
      simp only [Bool.not_true, Bool.false_or, Bool.and_eq_true, decide_eq_true_eq] at hc
      obtain ⟨h1, h2⟩ := ih (e.1, e.2.1, true) rfl
      exact ⟨le_trans h1 (le_of_lt hc.2), h2⟩
    · exact ih acc h

theorem bestDirLoop_le (l : List (Direction × ℤ × Bool)) :
    ∀ acc : Direction × ℤ × Bool, ∀ e ∈ l, e.2.2 = true →
      (bestDirLoop l acc).2.1 ≤ e.2.1 := by
  induction l with
  | nil =>
    intro acc e he
    simp at he
  | cons a rest ih =>
    intro acc e he hv
    rcases List.mem_cons.mp he with rfl | hmem
    · simp only [bestDirLoop]
      split_ifs with hc
      · exact (bestDirLoop_mono rest (e.1, e.2.1, true) rfl).1
      · rw [hv] at hc
        simp at hc
        have hle := (bestDirLoop_mono rest acc hc.1).1
        omega
    · simp only [bestDirLoop]
      exact ih _ e hmem hv

theorem bestDirLoop_choice (l : List (Direction × ℤ × Bool)) :
    ∀ acc : Direction × ℤ × Bool,
      bestDirLoop l acc = acc ∨
      ∃ l1 e l2, l = l1 ++ e :: l2 ∧ e.2.2 = true ∧
        bestDirLoop l acc = (e.1, e.2.1, true) ∧
        (∀ e1 ∈ l1, e1.2.2 = true → e.2.1 < e1.2.1) ∧
        (acc.2.2 = true → e.2.1 < acc.2.1) := by
  induction l with
  | nil =>
    intro acc
    exact Or.inl rfl
  | cons a rest ih =>
    intro acc
    simp only [bestDirLoop]
    split_ifs with hc
    · simp only [Bool.and_eq_true] at hc
      have ha : a.2.2 = true := hc.1
      have halt : acc.2.2 = true → a.2.1 < acc.2.1 := by
        intro hacc
        have h2 := hc.2
        rw [hacc] at h2
        simpa using h2
      rcases ih (a.1, a.2.1, true) with h | ⟨l1, e, l2, hsplit, hv, hres, hmin, hlt⟩
      · right
        exact ⟨[], a, rest, by simp, ha, h, by simp, halt⟩
      · right
        refine ⟨a :: l1, e, l2, by simp [hsplit], hv, hres, ?_, ?_⟩
        · intro e1 he1 hv1
          rcases List.mem_cons.mp he1 with rfl | hm
          · simpa using hlt rfl
          · exact hmin e1 hm hv1
        · intro hacc
          have h1 : e.2.1 < a.2.1 := by simpa using hlt rfl
          have h2 := halt hacc
          omega
    · rcases ih acc with h | ⟨l1, e, l2, hsplit, hv, hres, hmin, hlt⟩
      · exact Or.inl h
      · right
        refine ⟨a :: l1, e, l2, by simp [hsplit], hv, hres, ?_, hlt⟩
        intro e1 he1 hv1
        rcases List.mem_cons.mp he1 with rfl | hm
        · rw [hv1] at hc
          simp at hc
          have h1 := hlt hc.1
          have h2 := hc.2
          omega
        · exact hmin e1 hm hv1

/-- Evaluation order of the four directions in SnakeBossFindPath. -/
def dirOrder : Direction → ℕ
  | Direction.up => 0
  | Direction.right => 1
  | Direction.down => 2
  | Direction.left => 3

/-- Spec-side candidate notion for path selection: the neighbour cell in
direction `d` is free (no wall, no non-head segment) and `d` is not the
reverse of the current direction. -/
def pathCandidate (bd : SnakeBossData) (w : World) (hx hy : ℤ) (d : Direction) : Prop :=
  SnakeBossIsValidPosition bd (hx + (dirStep d).1) (hy + (dirStep d).2) w = true ∧
  d ≠ dirOpposite bd.currentDir

/-- Spec-side Manhattan distance from the neighbour cell in direction `d`
to the target cell. -/
def manhattanAfter (tx ty hx hy : ℤ) (d : Direction) : ℤ :=
  |tx - (hx + (dirStep d).1)| + |ty - (hy + (dirStep d).2)|

/-- Claim C3: SnakeBossFindPath only ever writes nextDir; when no
candidate direction exists the boss data (hence the queued direction,
equal to the current one) is unchanged; when candidates exist the queued
direction is a candidate of minimum Manhattan distance to the target,
ties broken in the order up, right, down, left, chosen even when it does
not reduce the distance, and never the reverse of the current direction. -/
theorem SnakeBossFindPath_spec (bd : SnakeBossData) (tx ty : ℤ) (w : World)
    (hseg : SnakeSegment) (rest : List SnakeSegment) (hsegs : bd.segments = hseg :: rest)
    (hnd : bd.nextDir = bd.currentDir) :
    (∃ nd : Direction, SnakeBossFindPath bd tx ty w = { bd with nextDir := nd }) ∧
    ((∀ d, ¬ pathCandidate bd w hseg.gridX hseg.gridY d) →
      SnakeBossFindPath bd tx ty w = bd ∧
      (SnakeBossFindPath bd tx ty w).nextDir = bd.currentDir) ∧
    (∀ d0, pathCandidate bd w hseg.gridX hseg.gridY d0 →
      pathCandidate bd w hseg.gridX hseg.gridY (SnakeBossFindPath bd tx ty w).nextDir ∧
      (∀ d, pathCandidate bd w hseg.gridX hseg.gridY d →
        manhattanAfter tx ty hseg.gridX hseg.gridY (SnakeBossFindPath bd tx ty w).nextDir
          ≤ manhattanAfter tx ty hseg.gridX hseg.gridY d ∧
        (manhattanAfter tx ty hseg.gridX hseg.gridY d
            = manhattanAfter tx ty hseg.gridX hseg.gridY (SnakeBossFindPath bd tx ty w).nextDir →
          dirOrder (SnakeBossFindPath bd tx ty w).nextDir ≤ dirOrder d)) ∧
      (SnakeBossFindPath bd tx ty w).nextDir ≠ dirOpposite bd.currentDir) := by
  set vU : Bool := SnakeBossIsValidPosition bd (hseg.gridX + (dirStep Direction.up).1) (hseg.gridY + (dirStep Direction.up).2) w && decide (Direction.up ≠ dirOpposite bd.currentDir) with hvU
  set vR : Bool := SnakeBossIsValidPosition bd (hseg.gridX + (dirStep Direction.right).1) (hseg.gridY + (dirStep Direction.right).2) w && decide (Direction.right ≠ dirOpposite bd.currentDir) with hvR
  set vD : Bool := SnakeBossIsValidPosition bd (hseg.gridX + (dirStep Direction.down).1) (hseg.gridY + (dirStep Direction.down).2) w && decide (Direction.down ≠ dirOpposite bd.currentDir) with hvD
  set vL : Bool := SnakeBossIsValidPosition bd (hseg.gridX + (dirStep Direction.left).1) (hseg.gridY + (dirStep Direction.left).2) w && decide (Direction.left ≠ dirOpposite bd.currentDir) with hvL
  have hpcU : pathCandidate bd w hseg.gridX hseg.gridY Direction.up ↔ vU = true := by
    rw [hvU]
    simp [pathCandidate]
  have hpcR : pathCandidate bd w hseg.gridX hseg.gridY Direction.right ↔ vR = true := by
    rw [hvR]
    simp [pathCandidate]
  have hpcD : pathCandidate bd w hseg.gridX hseg.gridY Direction.down ↔ vD = true := by
    rw [hvD]
    simp [pathCandidate]
  have hpcL : pathCandidate bd w hseg.gridX hseg.gridY Direction.left ↔ vL = true := by
    rw [hvL]
    simp [pathCandidate]
  set eL : List (Direction × ℤ × Bool) := [(Direction.up, manhattanAfter tx ty hseg.gridX hseg.gridY Direction.up, vU), (Direction.right, manhattanAfter tx ty hseg.gridX hseg.gridY Direction.right, vR), (Direction.down, manhattanAfter tx ty hseg.gridX hseg.gridY Direction.down, vD), (Direction.left, manhattanAfter tx ty hseg.gridX hseg.gridY Direction.left, vL)] with heL
  set s4 := bestDirLoop eL (bd.currentDir, 999999, false) with hs4
  have hmain : SnakeBossFindPath bd tx ty w = (if s4.2.2 && decide (s4.2.1 ≤ |tx - hseg.gridX| + |ty - hseg.gridY|) then { bd with nextDir := s4.1 } else if s4.2.2 then { bd with nextDir := s4.1 } else bd) := by
    rw [hs4, heL, hvU, hvR, hvD, hvL]
    simp only [SnakeBossFindPath, hsegs]
    rfl
  have hbit : ∀ d : Direction, pathCandidate bd w hseg.gridX hseg.gridY d →
      eL.any (fun e => e.2.2) = true := by
    intro d hd
    rcases d
    case up =>
      rw [hpcU] at hd
      rw [heL]
      simp [hd]
    case right =>
      rw [hpcR] at hd
      rw [heL]
      simp [hd]
    case down =>
      rw [hpcD] at hd
      rw [heL]
      simp [hd]
    case left =>
      rw [hpcL] at hd
      rw [heL]
      simp [hd]
  have hLE : ∀ d : Direction, pathCandidate bd w hseg.gridX hseg.gridY d →
      s4.2.1 ≤ manhattanAfter tx ty hseg.gridX hseg.gridY d := by
    intro d hd
    rcases d
    case up =>
      rw [hpcU] at hd
      have h := bestDirLoop_le eL (bd.currentDir, 999999, false)
        (Direction.up, manhattanAfter tx ty hseg.gridX hseg.gridY Direction.up, vU)
        (by rw [heL]; simp) hd
      rw [← hs4] at h
      exact h
    case right =>
      rw [hpcR] at hd
      have h := bestDirLoop_le eL (bd.currentDir, 999999, false)
        (Direction.right, manhattanAfter tx ty hseg.gridX hseg.gridY Direction.right, vR)
        (by rw [heL]; simp) hd
      rw [← hs4] at h
      exact h
    case down =>
      rw [hpcD] at hd
      have h := bestDirLoop_le eL (bd.currentDir, 999999, false)
        (Direction.down, manhattanAfter tx ty hseg.gridX hseg.gridY Direction.down, vD)
        (by rw [heL]; simp) hd
      rw [← hs4] at h
      exact h
    case left =>
      rw [hpcL] at hd
      have h := bestDirLoop_le eL (bd.currentDir, 999999, false)
        (Direction.left, manhattanAfter tx ty hseg.gridX hseg.gridY Direction.left, vL)
        (by rw [heL]; simp) hd
      rw [← hs4] at h
      exact h
  rw [hmain]
  rcases bestDirLoop_choice eL (bd.currentDir, 999999, false) with hid |
    ⟨l1, e, l2, hsplit, hv, hres, hmin, hlt⟩
  · rw [← hs4] at hid
    rw [hid]
    simp only [Bool.false_and, Bool.false_eq_true, if_false]
    refine ⟨⟨bd.nextDir, rfl⟩, fun hno => ⟨trivial, by exact hnd⟩, fun d0 hd0 => ?_⟩
    exfalso
    have hany := hbit d0 hd0
    have hf := bestDirLoop_found eL (bd.currentDir, 999999, false)
    rw [← hs4, hid, hany] at hf
    simp at hf
  · rw [← hs4] at hres
    have hout : (if s4.2.2 && decide (s4.2.1 ≤ |tx - hseg.gridX| + |ty - hseg.gridY|) then { bd with nextDir := s4.1 } else if s4.2.2 then { bd with nextDir := s4.1 } else bd) = { bd with nextDir := e.1 } := by
      rw [hres]
      split_ifs with h1 h2
      · rfl
      · rfl
      · exact absurd rfl h2
    rw [hout]
    rw [heL] at hsplit
    rcases l1 with _ | ⟨a1, l1⟩
    · simp only [List.nil_append, List.cons.injEq] at hsplit
      obtain ⟨he, hl2⟩ := hsplit
      subst he
      subst hl2
      have hvU' : vU = true := hv
      have hne : Direction.up ≠ dirOpposite bd.currentDir := by
        have h2 := hvU'
        rw [hvU] at h2
        simp only [Bool.and_eq_true, decide_eq_true_eq] at h2
        exact h2.2
      refine ⟨⟨Direction.up, rfl⟩, fun hno => absurd (hpcU.mpr hvU') (hno Direction.up),
        fun d0 hd0 => ⟨hpcU.mpr hvU', fun d hd => ⟨?_, ?_⟩, hne⟩⟩
      · have h := hLE d hd
        rw [hres] at h
        exact h
      · intro heq
        rcases d <;> simp [dirOrder]
    · simp only [List.cons_append, List.cons.injEq] at hsplit
      obtain ⟨ha1, hsplit⟩ := hsplit
      rcases l1 with _ | ⟨a2, l1⟩
      · simp only [List.nil_append, List.cons.injEq] at hsplit
        obtain ⟨he, hl2⟩ := hsplit
        subst he
        subst hl2
        subst ha1
        have hvR' : vR = true := hv
        have hne : Direction.right ≠ dirOpposite bd.currentDir := by
          have h2 := hvR'
          rw [hvR] at h2
          simp only [Bool.and_eq_true, decide_eq_true_eq] at h2
          exact h2.2
        refine ⟨⟨Direction.right, rfl⟩, fun hno => absurd (hpcR.mpr hvR') (hno Direction.right),
          fun d0 hd0 => ⟨hpcR.mpr hvR', fun d hd => ⟨?_, ?_⟩, hne⟩⟩
        · have h := hLE d hd
          rw [hres] at h
          exact h
        · intro heq
          rcases d
          case up =>
            exfalso
            have hbitU : vU = true := hpcU.mp hd
            have hx := hmin (Direction.up, manhattanAfter tx ty hseg.gridX hseg.gridY Direction.up, vU) (by simp) hbitU
            dsimp only at hx heq
            linarith
          case right => simp [dirOrder]
          case down => simp [dirOrder]
          case left => simp [dirOrder]
      · simp only [List.cons_append, List.cons.injEq] at hsplit
        obtain ⟨ha2, hsplit⟩ := hsplit
        rcases l1 with _ | ⟨a3, l1⟩
        · simp only [List.nil_append, List.cons.injEq] at hsplit
          obtain ⟨he, hl2⟩ := hsplit
          subst he
          subst hl2
          subst ha1
          subst ha2
          have hvD' : vD = true := hv
          have hne : Direction.down ≠ dirOpposite bd.currentDir := by
            have h2 := hvD'
            rw [hvD] at h2
            simp only [Bool.and_eq_true, decide_eq_true_eq] at h2
            exact h2.2
          refine ⟨⟨Direction.down, rfl⟩, fun hno => absurd (hpcD.mpr hvD') (hno Direction.down),
            fun d0 hd0 => ⟨hpcD.mpr hvD', fun d hd => ⟨?_, ?_⟩, hne⟩⟩
          · have h := hLE d hd
            rw [hres] at h
            exact h
          · intro heq
            rcases d
            case up =>
              exfalso
              have hbitU : vU = true := hpcU.mp hd
              have hx := hmin (Direction.up, manhattanAfter tx ty hseg.gridX hseg.gridY Direction.up, vU) (by simp) hbitU
              dsimp only at hx heq
              linarith
            case right =>
              exfalso
              have hbitR : vR = true := hpcR.mp hd
              have hx := hmin (Direction.right, manhattanAfter tx ty hseg.gridX hseg.gridY Direction.right, vR) (by simp) hbitR
              dsimp only at hx heq
              linarith
            case down => simp [dirOrder]
            case left => simp [dirOrder]
        · simp only [List.cons_append, List.cons.injEq] at hsplit
          obtain ⟨ha3, hsplit⟩ := hsplit
          rcases l1 with _ | ⟨a4, l1⟩
          · simp only [List.nil_append, List.cons.injEq] at hsplit
            obtain ⟨he, hl2⟩ := hsplit
            subst he
            subst hl2
            subst ha1
            subst ha2
            subst ha3
            have hvL' : vL = true := hv
            have hne : Direction.left ≠ dirOpposite bd.currentDir := by
              have h2 := hvL'
              rw [hvL] at h2
              simp only [Bool.and_eq_true, decide_eq_true_eq] at h2
              exact h2.2
            refine ⟨⟨Direction.left, rfl⟩, fun hno => absurd (hpcL.mpr hvL') (hno Direction.left),
              fun d0 hd0 => ⟨hpcL.mpr hvL', fun d hd => ⟨?_, ?_⟩, hne⟩⟩
            · have h := hLE d hd
              rw [hres] at h
              exact h
            · intro heq
              rcases d
              case up =>
                exfalso
                have hbitU : vU = true := hpcU.mp hd
                have hx := hmin (Direction.up, manhattanAfter tx ty hseg.gridX hseg.gridY Direction.up, vU) (by simp) hbitU
                dsimp only at hx heq
                linarith
              case right =>
                exfalso
                have hbitR : vR = true := hpcR.mp hd
                have hx := hmin (Direction.right, manhattanAfter tx ty hseg.gridX hseg.gridY Direction.right, vR) (by simp) hbitR
                dsimp only at hx heq
                linarith
              case down =>
                exfalso
                have hbitD : vD = true := hpcD.mp hd
                have hx := hmin (Direction.down, manhattanAfter tx ty hseg.gridX hseg.gridY Direction.down, vD) (by simp) hbitD
                dsimp only at hx heq
                linarith
              case left => simp [dirOrder]
          · simp only [List.cons_append, List.cons.injEq] at hsplit
            obtain ⟨ha4, hsplit⟩ := hsplit
            cases l1 <;> simp at hsplit

/-- Witness for claim C3: for the sample boss heading right with the ball
at grid (10, 5), moving up is a candidate, so the queued direction is
never the reverse of the current direction. -/
theorem SnakeBossFindPath_spec_witness :
    (SnakeBossFindPath sampleBoss 10 5 sampleWorld).nextDir
      ≠ dirOpposite sampleBoss.currentDir :=
  ((SnakeBossFindPath_spec sampleBoss 10 5 sampleWorld sampleSegA [sampleSegB] rfl rfl).2.2
    Direction.up
    ⟨by norm_num [SnakeBossIsValidPosition, WorldIsWallAtPosition, truncQ, sampleBoss,
        sampleWorld, sampleSegA, sampleSegB, dirStep, TILE_WIDTH, TILE_HEIGHT,
        Int.floor_eq_iff, Int.tdiv],
      by simp [sampleBoss, dirOpposite]⟩).2.2

/-- Claim C7: a neutral ball captured by the hole moves the win-condition
state from idle directly to neutral-hold (timer reset); the player and
every snake boss are untouched, and only the position and velocity of the
ball change (it is stopped and centred in the hole). -/
theorem WinConditionUpdate_neutral_capture (sq : ℚ → ℚ) (c s : ℚ) (wc : WinCondition)
    (b : Ball) (p : PlayerEnt) (bosses : List SnakeBossData) (dt : ℚ)
    (hst : wc.state = WinState.idle) (hb : b.state = BallState.neutral)
    (hin : ballInHoleTest wc b = true) :
    (WinConditionUpdate sq c s wc b p bosses dt).1.state = WinState.neutralHold ∧
    (WinConditionUpdate sq c s wc b p bosses dt).1.stateTimer = 0 ∧
    (WinConditionUpdate sq c s wc b p bosses dt).2.2.1 = p ∧
    (WinConditionUpdate sq c s wc b p bosses dt).2.2.2 = bosses ∧
    (WinConditionUpdate sq c s wc b p bosses dt).2.1 =
      { b with speedX := 0, speedY := 0, x := wc.posX, y := wc.posY } := by
  have hup : WinConditionUpdate sq c s wc b p bosses dt = ({ wc with state := WinState.neutralHold, stateTimer := 0 }, { b with speedX := 0, speedY := 0, x := wc.posX, y := wc.posY }, p, bosses) := by
    unfold WinConditionUpdate
    rw [hst, hb]
    simp [hin]
  rw [hup]
  exact ⟨rfl, rfl, rfl, rfl, rfl⟩

/-- A concrete hole for witnesses: the idle win condition at (100, 100)
with the configured radius. -/
def sampleHole : WinCondition :=
  { posX := 100, posY := 100, radius := WIN_HOLE_RADIUS, state := WinState.idle,
    stateTimer := 0 }

/-- Witness for claim C7: the sample neutral ball dropped on the sample
hole centre sends the state machine to neutral-hold. -/
theorem WinConditionUpdate_neutral_capture_witness :
    (WinConditionUpdate sqId 1 0 sampleHole { sampleBall with x := 100, y := 100 }
      samplePlayer [] 1).1.state = WinState.neutralHold :=
  (WinConditionUpdate_neutral_capture sqId 1 0 sampleHole
    { sampleBall with x := 100, y := 100 } samplePlayer [] 1 rfl rfl
    (by norm_num [ballInHoleTest, sqrtLtB, sampleHole, sampleBall, WIN_HOLE_RADIUS,
      BALL_RADIUS])).1

/-- Claim C6: when the neutral-hold timer reaches the hold duration, the
ball is ejected: for every ejection angle (given by its cosine and sine),
ownership is neutral, the position is the hole centre plus (hole radius +
ball radius) along the angle — so its Euclidean distance from the centre
strictly exceeds the hole radius — and the velocity points along the same
angle at 1.5 times BALL_INITIAL_SPEED, which is under the BALL_MAX_SPEED
clamp; the state machine returns to idle. -/
theorem WinConditionEjectBall_spec (sq : ℚ → ℚ) (c s : ℚ) (wc : WinCondition)
    (b : Ball) (p : PlayerEnt) (bosses : List SnakeBossData) (dt : ℚ)
    (hst : wc.state = WinState.neutralHold)
    (htime : WIN_NEUTRAL_BALL_HOLD_TIME ≤ wc.stateTimer + dt)
    (hact : b.active = true)
    (hunit : c ^ 2 + s ^ 2 = 1)
    (hr : 0 < b.radius) (hR : 0 ≤ wc.radius) :
    (WinConditionUpdate sq c s wc b p bosses dt).2.1.state = BallState.neutral ∧
    (WinConditionUpdate sq c s wc b p bosses dt).2.1.x
      = wc.posX + c * (wc.radius + b.radius) ∧
    (WinConditionUpdate sq c s wc b p bosses dt).2.1.y
      = wc.posY + s * (wc.radius + b.radius) ∧
    Real.sqrt ((((WinConditionUpdate sq c s wc b p bosses dt).2.1.x - wc.posX : ℚ) : ℝ) ^ 2
        + (((WinConditionUpdate sq c s wc b p bosses dt).2.1.y - wc.posY : ℚ) : ℝ) ^ 2)
      > (wc.radius : ℝ) ∧
    (WinConditionUpdate sq c s wc b p bosses dt).2.1.speedX
      = c * (BALL_INITIAL_SPEED * (3/2)) ∧
    (WinConditionUpdate sq c s wc b p bosses dt).2.1.speedY
      = s * (BALL_INITIAL_SPEED * (3/2)) ∧
    (WinConditionUpdate sq c s wc b p bosses dt).1.state = WinState.idle := by
  have hdec : decide (({ wc with stateTimer := wc.stateTimer + dt } : WinCondition).stateTimer
      ≥ WIN_NEUTRAL_BALL_HOLD_TIME) = true := decide_eq_true htime
  have hnoclamp : sqrtGtB ((0 + c * (BALL_INITIAL_SPEED * (3/2))) * (0 + c * (BALL_INITIAL_SPEED * (3/2))) + (0 + s * (BALL_INITIAL_SPEED * (3/2))) * (0 + s * (BALL_INITIAL_SPEED * (3/2)))) BALL_MAX_SPEED = false := by
    unfold sqrtGtB
    rw [decide_eq_false_iff_not]
    rw [BALL_MAX_SPEED, BALL_INITIAL_SPEED]
    push_neg
    constructor
    · norm_num
    · nlinarith [hunit]
  have hup : WinConditionUpdate sq c s wc b p bosses dt = ({ wc with stateTimer := wc.stateTimer + dt, state := WinState.idle }, { b with x := wc.posX + c * (wc.radius + b.radius), y := wc.posY + s * (wc.radius + b.radius), speedX := 0 + c * (BALL_INITIAL_SPEED * (3/2)), speedY := 0 + s * (BALL_INITIAL_SPEED * (3/2)), state := BallState.neutral, innerColor := CColor.white, outerColor := CColor.white }, p, bosses) := by
    unfold WinConditionUpdate WinConditionHandleNeutralBall WinConditionEjectBall
    rw [hst]
    simp only [hdec, if_true]
    unfold BallApplyForce
    rw [hact]
    simp only [Bool.true_eq_false, if_false, hnoclamp, if_true]
    simp
  rw [hup]
  refine ⟨rfl, rfl, rfl, ?_, by simp, by simp, rfl⟩
  have hu : (c : ℝ) ^ 2 + (s : ℝ) ^ 2 = 1 := by exact_mod_cast hunit
  have hRr : (0 : ℝ) < (wc.radius : ℝ) + (b.radius : ℝ) := by
    have h1 : (0 : ℝ) < (b.radius : ℝ) := by exact_mod_cast hr
    have h2 : (0 : ℝ) ≤ (wc.radius : ℝ) := by exact_mod_cast hR
    linarith
  have hxy : (((wc.posX + c * (wc.radius + b.radius) - wc.posX : ℚ)) : ℝ) ^ 2
      + (((wc.posY + s * (wc.radius + b.radius) - wc.posY : ℚ)) : ℝ) ^ 2
      = (((wc.radius : ℝ) + (b.radius : ℝ))) ^ 2 := by
    push_cast
    linear_combination (((wc.radius : ℝ) + (b.radius : ℝ))) ^ 2 * hu
  rw [hxy, Real.sqrt_sq hRr.le]
  have h1 : (0 : ℝ) < (b.radius : ℝ) := by exact_mod_cast hr
  linarith

/-- Witness for claim C6: ejection along angle zero from the sample hole
after a full hold leaves the ball neutral. -/
theorem WinConditionEjectBall_spec_witness :
    (WinConditionUpdate sqId 1 0 { sampleHole with state := WinState.neutralHold }
      sampleBall samplePlayer [] 2).2.1.state = BallState.neutral :=
  (WinConditionEjectBall_spec sqId 1 0 { sampleHole with state := WinState.neutralHold }
    sampleBall samplePlayer [] 2 rfl
    (by norm_num [sampleHole, WIN_NEUTRAL_BALL_HOLD_TIME]) rfl (by norm_num)
    (by norm_num [sampleBall, BALL_RADIUS])
    (by norm_num [sampleHole, WIN_HOLE_RADIUS])).1

/-- Counterexample to claim C1 as stated: a boss already in the shrinking
state takes a player-owned head hit; the collision registers (the handler
returns true) yet the segment count does not decrease and the boss does
not become defeated — the state guard in the source skips the shrink. -/
theorem SnakeBossHandleBallCollision_counterexample :
    (SnakeBossHandleBallCollision sqId { sampleBoss with state := SnakeBossState.shrinking }
      { sampleBall with x := 150, y := 150, state := BallState.player } none).2.2.2 = true ∧
    (SnakeBossHandleBallCollision sqId { sampleBoss with state := SnakeBossState.shrinking }
      { sampleBall with x := 150, y := 150, state := BallState.player } none).1.segments.length
      = 2 ∧
    (SnakeBossHandleBallCollision sqId { sampleBoss with state := SnakeBossState.shrinking }
      { sampleBall with x := 150, y := 150, state := BallState.player } none).1.state
      ≠ SnakeBossState.defeated := by
  refine ⟨?_, ?_, ?_⟩
  · norm_num [SnakeBossHandleBallCollision, snakeHeadBallHit, sqrtLtB, sampleBoss, sampleSegA,
      sampleSegB, sampleBall, SNAKE_HEAD_RADIUS, BALL_RADIUS]
  · norm_num [SnakeBossHandleBallCollision, snakeHeadBallHit, sqrtLtB, sampleBoss, sampleSegA,
      sampleSegB, sampleBall, SNAKE_HEAD_RADIUS, BALL_RADIUS]
  · intro hcon
    norm_num [SnakeBossHandleBallCollision, snakeHeadBallHit, sqrtLtB, sampleBoss, sampleSegA,
      sampleSegB, sampleBall, SNAKE_HEAD_RADIUS, BALL_RADIUS] at hcon
    exact SnakeBossState.noConfusion hcon

/-- Claim C1 (amended): provided the boss is not already shrinking or
defeated, a player-owned hit (head, or first colliding body segment)
registers, strictly decreases the segment count or defeats the boss, and
leaves the ball player-owned; provided the boss is not already growing, a
head hit by a ball that is not player-owned registers, grows the boss by
exactly one segment, flips the ball to enemy-owned and kicks it away from
the head (force 6 per axis, unclamped when under the speed cap); a
non-player ball that misses the head registers no body collision. -/
theorem SnakeBossHandleBallCollision_spec (sq : ℚ → ℚ) (bd : SnakeBossData) (b : Ball)
    (player : Option PlayerEnt) (hseg : SnakeSegment) (rest : List SnakeSegment)
    (hsegs : bd.segments = hseg :: rest) :
    (b.state = BallState.player → snakeHeadBallHit bd b = true →
      bd.state ≠ SnakeBossState.shrinking → bd.state ≠ SnakeBossState.defeated →
      ((SnakeBossHandleBallCollision sq bd b player).2.2.2 = true ∧
       ((SnakeBossHandleBallCollision sq bd b player).1.segments.length < bd.segments.length ∨
        (SnakeBossHandleBallCollision sq bd b player).1.state = SnakeBossState.defeated) ∧
       (SnakeBossHandleBallCollision sq bd b player).2.1.state = BallState.player)) ∧
    (b.state = BallState.player → snakeHeadBallHit bd b = false →
      ∀ seg, snakeBodyBallHit bd b = some seg →
      bd.state ≠ SnakeBossState.shrinking → bd.state ≠ SnakeBossState.defeated →
      ((SnakeBossHandleBallCollision sq bd b player).2.2.2 = true ∧
       ((SnakeBossHandleBallCollision sq bd b player).1.segments.length < bd.segments.length ∨
        (SnakeBossHandleBallCollision sq bd b player).1.state = SnakeBossState.defeated) ∧
       (SnakeBossHandleBallCollision sq bd b player).2.1.state = BallState.player)) ∧
    (b.state ≠ BallState.player → snakeHeadBallHit bd b = true →
      bd.state ≠ SnakeBossState.growing →
      ((SnakeBossHandleBallCollision sq bd b player).2.2.2 = true ∧
       (SnakeBossHandleBallCollision sq bd b player).1.segments.length
         = bd.segments.length + 1 ∧
       (SnakeBossHandleBallCollision sq bd b player).2.1.state = BallState.snake ∧
       (b.active = true →
        sqrtGtB ((b.speedX + (b.x - hseg.worldX) * 6) * (b.speedX + (b.x - hseg.worldX) * 6)
            + (b.speedY + (b.y - hseg.worldY) * 6) * (b.speedY + (b.y - hseg.worldY) * 6))
          BALL_MAX_SPEED = false →
        (SnakeBossHandleBallCollision sq bd b player).2.1.speedX
            = b.speedX + (b.x - hseg.worldX) * 6 ∧
          (SnakeBossHandleBallCollision sq bd b player).2.1.speedY
            = b.speedY + (b.y - hseg.worldY) * 6))) ∧
    (b.state ≠ BallState.player → snakeHeadBallHit bd b = false →
      SnakeBossHandleBallCollision sq bd b player = (bd, b, player, false)) := by
  refine ⟨?_, ?_, ?_, ?_⟩
  · intro hb hhit hs1 hs2
    rcases rest with _ | ⟨r1, rest⟩
    · unfold SnakeBossHandleBallCollision SnakeBossShrink
      simp [hsegs, hhit, hb, hs1, hs2, BallApplyForce_state]
    · unfold SnakeBossHandleBallCollision SnakeBossShrink
      simp [hsegs, hhit, hb, hs1, hs2, BallApplyForce_state]
  · intro hb hhit seg hbody hs1 hs2
    rcases rest with _ | ⟨r1, rest⟩
    · exfalso
      unfold snakeBodyBallHit at hbody
      rw [hsegs] at hbody
      simp at hbody
    · unfold SnakeBossHandleBallCollision SnakeBossShrink
      simp [hsegs, hhit, hb, hbody, hs1, hs2, BallApplyForce_state]
  · intro hb hhit hg
    have hbiff : (b.state = BallState.player) = False := by
      simp [hb]
    have hlseg : (hseg :: rest).getLast? = some ((hseg :: rest).getLast (by simp)) :=
      List.getLast?_eq_getLast _ (by simp)
    unfold SnakeBossHandleBallCollision SnakeBossGrow
    simp [hsegs, hhit, hbiff, hg, hlseg, BallApplyForce_state]
    intro hact hnc
    rw [BallApplyForce_noclamp sq b ((b.x - hseg.worldX) * 6) ((b.y - hseg.worldY) * 6) hact hnc]
    exact ⟨rfl, rfl⟩
  · intro hb hhit
    unfold SnakeBossHandleBallCollision
    rcases hsg : bd.segments with _ | ⟨a, t⟩
    · rfl
    · simp [hhit, hb]

/-- Witness for the amended claim C1: a neutral ball on the sample boss
head grows the boss by exactly one segment. -/
theorem SnakeBossHandleBallCollision_spec_witness :
    (SnakeBossHandleBallCollision sqId sampleBoss { sampleBall with x := 150, y := 150 }
      none).1.segments.length = sampleBoss.segments.length + 1 :=
  ((SnakeBossHandleBallCollision_spec sqId sampleBoss { sampleBall with x := 150, y := 150 }
      none sampleSegA [sampleSegB] rfl).2.2.1
    (by simp [sampleBall])
    (by norm_num [snakeHeadBallHit, sqrtLtB, sampleBoss, sampleSegA, sampleSegB, sampleBall,
      SNAKE_HEAD_RADIUS, BALL_RADIUS])
    (by simp [sampleBoss])).2.1

/-- If the ball does not overlap the player (the C distance test fails),
BallHandlePlayerCollision returns the ball unchanged. -/
theorem BallHandlePlayerCollision_miss (sq : ℚ → ℚ) (b : Ball) (p : PlayerEnt)
    (h : sqrtLtB ((b.x - p.x) * (b.x - p.x) + (b.y - p.y) * (b.y - p.y))
      (b.radius + (p.width + p.height) / 4) = false) :
    BallHandlePlayerCollision sq b p = b := by
  simp [BallHandlePlayerCollision, h]

/-- Claim C8 counterexample: BallUpdate does not clamp the velocity to
BALL_MAX_SPEED.  The sample ball kicked rightwards at speed 9 in open
space keeps speed 9 * 0.98 = 8.82 after one update, a magnitude above
the configured maximum of 8; the only clamp in the code sits inside the
player-collision branch, which does not run here. -/
theorem BallUpdate_clamp_counterexample :
    fastBallAfter.speedY = 0 ∧ fastBallAfter.speedX = 441/50 ∧
    (BALL_MAX_SPEED : ℝ) <
      Real.sqrt ((fastBallAfter.speedX * fastBallAfter.speedX +
        fastBallAfter.speedY * fastBallAfter.speedY : ℚ) : ℝ) := by
  have hx : fastBallAfter.speedX = 441/50 := by
    norm_num [fastBallAfter, fastBall, BallUpdate, ballIntegrate, BallHandleWallCollision,
      wallTileStep, WorldIsWallAtPosition, truncQ, BallHandlePlayerCollision, sqrtLtB,
      sampleBall, samplePlayer, sampleWorld, sqId, TILE_WIDTH, TILE_HEIGHT, BALL_RADIUS,
      BALL_FRICTION, BALL_BOUNCE_FACTOR, List.foldl_cons, List.foldl_nil,
      Int.floor_eq_iff, Int.tdiv, abs_lt]
  have hy : fastBallAfter.speedY = 0 := by
    norm_num [fastBallAfter, fastBall, BallUpdate, ballIntegrate, BallHandleWallCollision,
      wallTileStep, WorldIsWallAtPosition, truncQ, BallHandlePlayerCollision, sqrtLtB,
      sampleBall, samplePlayer, sampleWorld, sqId, TILE_WIDTH, TILE_HEIGHT, BALL_RADIUS,
      BALL_FRICTION, BALL_BOUNCE_FACTOR, List.foldl_cons, List.foldl_nil,
      Int.floor_eq_iff, Int.tdiv, abs_lt]
  refine ⟨hy, hx, ?_⟩
  rw [hx, hy]
  exact (sqrtGtB_iff (441/50 * (441/50) + 0 * 0) BALL_MAX_SPEED (by norm_num)).mp
    (by norm_num [sqrtGtB, BALL_MAX_SPEED])

/-- Claim C8 (amended): for an active ball, one BallUpdate step adds the
velocity to the position, multiplies the velocity by the friction
factor, resolves wall then player collisions, and zeroes each velocity
component whose absolute value is below 0.1; when the wall resolution
and the player-overlap test are no-ops the result is exactly
integrate-then-friction with the residual zeroing, with no clamp of the
velocity magnitude to BALL_MAX_SPEED anywhere on this path. -/
theorem BallUpdate_spec (sq : ℚ → ℚ) (b : Ball) (w : World) (p : PlayerEnt) (dt : ℚ)
    (hact : b.active = true)
    (hwall : BallHandleWallCollision (ballIntegrate b) w b.x b.y = ballIntegrate b)
    (hmiss : sqrtLtB (((ballIntegrate b).x - p.x) * ((ballIntegrate b).x - p.x) +
        ((ballIntegrate b).y - p.y) * ((ballIntegrate b).y - p.y))
      (b.radius + (p.width + p.height) / 4) = false) :
    BallUpdate sq b w p dt =
      { b with
          x := b.x + b.speedX
          y := b.y + b.speedY
          speedX := if |b.speedX * b.friction| < 1/10 then 0 else b.speedX * b.friction
          speedY := if |b.speedY * b.friction| < 1/10 then 0 else b.speedY * b.friction } := by
  have hmiss' : BallHandlePlayerCollision sq (ballIntegrate b) p = ballIntegrate b :=
    BallHandlePlayerCollision_miss sq (ballIntegrate b) p (by simpa [ballIntegrate] using hmiss)
  unfold BallUpdate
  rw [hact, if_neg (by decide)]
  dsimp only
  rw [hwall, hmiss']
  by_cases h1 : |b.speedX * b.friction| < (10 : ℚ)⁻¹ <;>
    by_cases h2 : |b.speedY * b.friction| < (10 : ℚ)⁻¹ <;>
      simp [ballIntegrate, h1, h2] <;> exact hact

/-- Witness for the amended C8 theorem at the sample ball pushed
rightwards at speed 2 in open space. -/
theorem BallUpdate_spec_witness :
    BallUpdate sqId { sampleBall with speedX := 2 } sampleWorld samplePlayer 1 =
      { sampleBall with x := 279/2, speedX := 49/25 } := by
  rw [BallUpdate_spec sqId { sampleBall with speedX := 2 } sampleWorld samplePlayer 1
      rfl
      (by norm_num [BallHandleWallCollision, wallTileStep, WorldIsWallAtPosition, truncQ,
        ballIntegrate, sampleBall, sampleWorld, TILE_WIDTH, TILE_HEIGHT, BALL_RADIUS,
        BALL_FRICTION, BALL_BOUNCE_FACTOR, List.foldl_cons, List.foldl_nil,
        Int.floor_eq_iff, Int.tdiv, abs_lt])
      (by norm_num [sqrtLtB, ballIntegrate, sampleBall, samplePlayer, BALL_RADIUS,
        BALL_FRICTION])]
  norm_num [sampleBall, BALL_FRICTION, abs_lt]
